import Mathlib

/-!
Verification of the reconciliation contract of the AxonOps declarative
provider (Go sources under src/).  Each definition is a shallow embedding
of one source function: gateway methods are modelled by their
status-code branching (transport, JSON codecs and header plumbing are
external effects), reconciler verbs by pure step functions over the
fetched remote state and the locally stored record, and the collection
merge operations by the corresponding list transformations.
-/

namespace Axonops

/-! ### Remote Gateway status handling (src/client/http_client.go)

Every gateway method decides success or failure purely from the HTTP
response status.  `WriteErr` records the status surfaced in the Go error
value and whether the error message interpolates the response body
(`body = some b`) or omits it (`body = none`). -/

structure WriteErr where
  status : Nat
  body : Option String
  deriving DecidableEq, Repr

/-- Outcome of a read-style gateway method: a decoded value, an explicit
"absent" result (Go `nil, nil`), or an error carrying the status. -/
inductive ReadOutcome where
  | success
  | absent
  | failure (status : Nat)
  deriving DecidableEq, Repr

/-- CreateTopic: only 201 is success; any other status errors with status and body. -/
def createTopicResult (status : Nat) (body : String) : Except WriteErr Unit :=
  if status = 201 then .ok () else .error ⟨status, some body⟩

/-- GetTopic (first request): only 200 is success; 404 is an error like any other non-200. -/
def getTopicRead (status : Nat) : ReadOutcome :=
  if status = 200 then .success else .failure status

/-- GetTopics: only 200 is success. -/
def getTopicsRead (status : Nat) : ReadOutcome :=
  if status = 200 then .success else .failure status

/-- DeleteTopic: only 204 is success; the error message carries the status but no body. -/
def deleteTopicResult (status : Nat) : Except WriteErr Unit :=
  if status = 204 then .ok () else .error ⟨status, none⟩

/-- UpdateTopicConfig: only 204 is success; error message has no response body. -/
def updateTopicConfigResult (status : Nat) : Except WriteErr Unit :=
  if status = 204 then .ok () else .error ⟨status, none⟩

/-- GetACLs: only 200 is success. -/
def getACLsRead (status : Nat) : ReadOutcome :=
  if status = 200 then .success else .failure status

/-- CreateACL: 200 or 204 is success; error message has no response body. -/
def createACLResult (status : Nat) : Except WriteErr Unit :=
  if status = 200 ∨ status = 204 then .ok () else .error ⟨status, none⟩

/-- DeleteACL: only 204 is success; error message has no response body. -/
def deleteACLResult (status : Nat) : Except WriteErr Unit :=
  if status = 204 then .ok () else .error ⟨status, none⟩

/-- CreateConnector: 200 or 201 is success; error carries status and body. -/
def createConnectorResult (status : Nat) (body : String) : Except WriteErr Unit :=
  if status = 200 ∨ status = 201 then .ok () else .error ⟨status, some body⟩

/-- GetConnector: on 200 the decoded connector map is filtered client-side,
yielding absent when the name is missing; 404 is also absent; otherwise error.
`present` records whether the requested name is a key of the decoded map. -/
def getConnectorRead (status : Nat) (present : Bool) : ReadOutcome :=
  if status = 200 then (if present then .success else .absent)
  else if status = 404 then .absent
  else .failure status

/-- UpdateConnectorConfig: only 200 is success; error carries status and body. -/
def updateConnectorConfigResult (status : Nat) (body : String) : Except WriteErr Unit :=
  if status = 200 then .ok () else .error ⟨status, some body⟩

/-- DeleteConnector: 204 or 200 is success; error carries status and body. -/
def deleteConnectorResult (status : Nat) (body : String) : Except WriteErr Unit :=
  if status = 204 ∨ status = 200 then .ok () else .error ⟨status, some body⟩

/-- CreateSchema: 200 or 201 is success; error message has no response body. -/
def createSchemaResult (status : Nat) : Except WriteErr Unit :=
  if status = 200 ∨ status = 201 then .ok () else .error ⟨status, none⟩

/-- GetSchema: 200 is success, 404 is the absent signal, anything else errors. -/
def getSchemaRead (status : Nat) : ReadOutcome :=
  if status = 200 then .success
  else if status = 404 then .absent
  else .failure status

/-- DeleteSchema: 200 or 204 is success; error message has no response body. -/
def deleteSchemaResult (status : Nat) : Except WriteErr Unit :=
  if status = 200 ∨ status = 204 then .ok () else .error ⟨status, none⟩

/-- GetLogCollectors: only 200 is success. -/
def getLogCollectorsRead (status : Nat) : ReadOutcome :=
  if status = 200 then .success else .failure status

/-- UpdateLogCollectors: 200 or 204 is success; error message has no response body. -/
def updateLogCollectorsResult (status : Nat) : Except WriteErr Unit :=
  if status = 200 ∨ status = 204 then .ok () else .error ⟨status, none⟩

/-- GetHealthchecks: only 200 is success. -/
def getHealthchecksRead (status : Nat) : ReadOutcome :=
  if status = 200 then .success else .failure status

/-- UpdateHealthchecks: 200 or 204 is success; error message has no response body. -/
def updateHealthchecksResult (status : Nat) : Except WriteErr Unit :=
  if status = 200 ∨ status = 204 then .ok () else .error ⟨status, none⟩

/-- GetCassandraAdaptiveRepair: only 200 is success. -/
def getAdaptiveRepairRead (status : Nat) : ReadOutcome :=
  if status = 200 then .success else .failure status

/-- UpdateCassandraAdaptiveRepair: 200 or 204 is success; error carries status and body. -/
def updateAdaptiveRepairResult (status : Nat) (body : String) : Except WriteErr Unit :=
  if status = 200 ∨ status = 204 then .ok () else .error ⟨status, some body⟩

/-- GetCassandraBackups: only 200 is success. -/
def getCassandraBackupsRead (status : Nat) : ReadOutcome :=
  if status = 200 then .success else .failure status

/-- CreateCassandraBackup: 200, 201 or 204 is success; error carries status and body. -/
def createCassandraBackupResult (status : Nat) (body : String) : Except WriteErr Unit :=
  if status = 200 ∨ status = 201 ∨ status = 204 then .ok () else .error ⟨status, some body⟩

/-- DeleteCassandraBackup: 204 or 200 is success; error carries status and body. -/
def deleteCassandraBackupResult (status : Nat) (body : String) : Except WriteErr Unit :=
  if status = 204 ∨ status = 200 then .ok () else .error ⟨status, some body⟩

/-- GetAlertRules: only 200 is success. -/
def getAlertRulesRead (status : Nat) : ReadOutcome :=
  if status = 200 then .success else .failure status

/-- CreateOrUpdateAlertRule: 200 or 201 is success; error carries status and body. -/
def createOrUpdateAlertRuleResult (status : Nat) (body : String) : Except WriteErr Unit :=
  if status = 200 ∨ status = 201 then .ok () else .error ⟨status, some body⟩

/-- DeleteAlertRule: 204 or 200 is success; error carries status and body. -/
def deleteAlertRuleResult (status : Nat) (body : String) : Except WriteErr Unit :=
  if status = 204 ∨ status = 200 then .ok () else .error ⟨status, some body⟩

/-- GetIntegrations: only 200 is success. -/
def getIntegrationsRead (status : Nat) : ReadOutcome :=
  if status = 200 then .success else .failure status

/-- SetIntegrationOverride: 204 or 200 is success; error carries status and body. -/
def setIntegrationOverrideResult (status : Nat) (body : String) : Except WriteErr Unit :=
  if status = 204 ∨ status = 200 then .ok () else .error ⟨status, some body⟩

/-- AddIntegrationRoute: 200, 201 or 204 is success; error carries status and body. -/
def addIntegrationRouteResult (status : Nat) (body : String) : Except WriteErr Unit :=
  if status = 200 ∨ status = 201 ∨ status = 204 then .ok () else .error ⟨status, some body⟩

/-- RemoveIntegrationRoute: 204 or 200 is success; error carries status and body. -/
def removeIntegrationRouteResult (status : Nat) (body : String) : Except WriteErr Unit :=
  if status = 204 ∨ status = 200 then .ok () else .error ⟨status, some body⟩

/-! ### Data model (src/client/http_client.go types and per-resource state records)

Go slices are modelled as lists (a nil slice and an empty slice coincide),
maps as association lists in iteration order, int32 and int as Int. -/

structure KafkaTopicConfig where
  name : String
  value : String
  deriving DecidableEq, Repr

structure TopicInfo where
  name : String
  partitions : Int
  replicationFactor : Int
  config : List KafkaTopicConfig
  deriving DecidableEq, Repr

structure KafkaUpdateTopicConfig where
  key : String
  value : String
  op : String
  deriving DecidableEq, Repr

/-- topicResourceData (src/resource_kafka_topic.go). -/
structure TopicData where
  name : String
  partitions : Int
  replicationFactor : Int
  clusterName : String
  config : List (String × String)
  deriving DecidableEq, Repr

structure KafkaACL where
  resourceType : String
  resourceName : String
  resourcePatternType : String
  principal : String
  host : String
  operation : String
  permissionType : String
  deriving DecidableEq, Repr

/-- aclResourceData (src/resource_acl.go). -/
structure ACLData where
  clusterName : String
  resourceType : String
  resourceName : String
  resourcePatternType : String
  principal : String
  host : String
  operation : String
  permissionType : String
  deriving DecidableEq, Repr

structure HealthcheckIntegrations where
  type : String
  routing : List String
  overrideInfo : Bool
  overrideWarning : Bool
  overrideError : Bool
  deriving DecidableEq, Repr

structure ShellHealthcheck where
  id : String
  name : String
  interval : String
  timeout : String
  integrations : HealthcheckIntegrations
  readonly : Bool
  shell : String
  script : String
  deriving DecidableEq, Repr

structure HTTPHealthcheck where
  id : String
  name : String
  interval : String
  timeout : String
  integrations : HealthcheckIntegrations
  readonly : Bool
  supportedAgentType : List String
  url : String
  method : String
  headers : List (String × String)
  body : String
  expectedStatus : Int
  deriving DecidableEq, Repr

structure TCPHealthcheck where
  id : String
  name : String
  interval : String
  timeout : String
  integrations : HealthcheckIntegrations
  readonly : Bool
  supportedAgentType : List String
  tcp : String
  deriving DecidableEq, Repr

structure HealthchecksResponse where
  shellChecks : List ShellHealthcheck
  httpChecks : List HTTPHealthcheck
  tcpChecks : List TCPHealthcheck
  deriving DecidableEq, Repr

/-- shellHealthcheckResourceData (src/resource_healthcheck_shell.go). -/
structure ShellHealthcheckData where
  clusterName : String
  name : String
  id : String
  script : String
  shell : String
  interval : String
  timeout : String
  readonly : Bool
  deriving DecidableEq, Repr

/-- tcpHealthcheckResourceData (third document of src/client/http_client.go). -/
structure TCPHealthcheckData where
  clusterName : String
  name : String
  id : String
  tcp : String
  interval : String
  timeout : String
  readonly : Bool
  supportedAgentTypes : List String
  deriving DecidableEq, Repr

/-- httpHealthcheckResourceData (src/unnamed/part_010). -/
structure HTTPHealthcheckData where
  clusterName : String
  name : String
  id : String
  url : String
  method : String
  headers : List (String × String)
  body : String
  expectedStatus : Int
  interval : String
  timeout : String
  readonly : Bool
  supportedAgentTypes : List String
  deriving DecidableEq, Repr

structure LogCollectorConfig where
  name : String
  uuid : String
  filename : String
  dateFormat : String
  infoRegex : String
  warningRegex : String
  errorRegex : String
  debugRegex : String
  supportedAgentType : List String
  errorAlertThreshold : Int
  deriving DecidableEq, Repr

/-- logCollectorResourceData (src/resource_logcollector.go). -/
structure LogCollectorData where
  clusterName : String
  name : String
  uuid : String
  filename : String
  dateFormat : String
  infoRegex : String
  warningRegex : String
  errorRegex : String
  debugRegex : String
  supportedAgentTypes : List String
  errorAlertThreshold : Int
  deriving DecidableEq, Repr

structure SchemaReference where
  name : String
  subject : String
  version : Int
  deriving DecidableEq, Repr

structure SchemaRegistryVersionedSchema where
  id : Int
  version : Int
  schema : String
  type : String
  references : List SchemaReference
  isSoftDeleted : Bool
  deriving DecidableEq, Repr

/-- schemaResourceData (src/unnamed/part_000). -/
structure SchemaData where
  clusterName : String
  subject : String
  schema : String
  schemaType : String
  schemaId : Int
  version : Int
  deriving DecidableEq, Repr

structure ConnectorTask where
  connector : String
  task : Int
  deriving DecidableEq, Repr

structure KafkaConnectorResponse where
  name : String
  config : List (String × String)
  tasks : List ConnectorTask
  type : String
  deriving DecidableEq, Repr

/-- connectorResourceData (src/unnamed/part_009). -/
structure ConnectorData where
  clusterName : String
  connectClusterName : String
  name : String
  config : List (String × String)
  type : String
  deriving DecidableEq, Repr

structure MetricAlertFilter where
  name : String
  value : List String
  deriving DecidableEq, Repr

structure MetricAlertAnnotations where
  description : String
  summary : String
  widgetUrl : String
  deriving DecidableEq, Repr

/-- MetricAlertRule; the Go json field "for" is modelled as forDuration. -/
structure MetricAlertRule where
  id : String
  alert : String
  forDuration : String
  operator : String
  warningValue : Float
  criticalValue : Float
  expr : String
  widgetTitle : String
  correlationId : String
  annotations : MetricAlertAnnotations
  filters : List MetricAlertFilter
  deriving Repr

/-- metricAlertRuleResourceData (src/resource_metric_alert_rule.go). -/
structure MetricAlertRuleData where
  clusterName : String
  clusterType : String
  id : String
  name : String
  metric : String
  operator : String
  warningValue : Float
  criticalValue : Float
  duration : String
  description : String
  dc : List String
  rack : List String
  hostId : List String
  scope : List String
  keyspace : List String
  percentile : List String
  consistency : List String
  groupBy : List String
  deriving Repr

structure CassandraBackup where
  id : String
  tag : String
  localRetentionDuration : String
  remote : Bool
  remoteConfig : String
  remotePath : String
  remoteRetentionDuration : String
  remoteType : String
  timeout : String
  transfers : Int
  tpsLimit : Int
  bwLimit : String
  datacenters : List String
  nodes : List String
  tables : List String
  keyspaces : List String
  allTables : Bool
  allNodes : Bool
  schedule : Bool
  scheduleExpr : String
  deriving DecidableEq, Repr

/-- cassandraBackupResourceData (src/unnamed/part_008). -/
structure CassandraBackupData where
  clusterName : String
  clusterType : String
  tag : String
  id : String
  localRetention : String
  remote : Bool
  remoteType : String
  remotePath : String
  remoteRetention : String
  remoteConfig : String
  timeout : String
  transfers : Int
  tpsLimit : Int
  bwLimit : String
  datacenters : List String
  keyspaces : List String
  tables : List String
  nodes : List String
  schedule : Bool
  scheduleExpr : String
  deriving DecidableEq, Repr

structure IntegrationDefinition where
  id : String
  type : String
  params : List (String × String)
  deriving DecidableEq, Repr

structure IntegrationRoute where
  id : String
  severity : String
  deriving DecidableEq, Repr

structure IntegrationRouting where
  type : String
  routing : List IntegrationRoute
  overrideInfo : Bool
  overrideWarning : Bool
  overrideError : Bool
  deriving DecidableEq, Repr

structure IntegrationsResponse where
  definitions : List IntegrationDefinition
  routings : List IntegrationRouting
  deriving DecidableEq, Repr

/-- alertRouteResourceData (src/resource_alert_route.go). -/
structure AlertRouteData where
  clusterName : String
  clusterType : String
  integrationName : String
  integrationType : String
  routeType : String
  severity : String
  enableOverride : Bool
  deriving DecidableEq, Repr

structure AdaptiveRepairSettings where
  active : Bool
  gcGraceThreshold : Int
  tableParallelism : Int
  blacklistedTables : List String
  filterTWCSTables : Bool
  segmentRetries : Int
  segmentsPerVnode : Int
  segmentTargetSizeMB : Int
  deriving DecidableEq, Repr

/-- cassandraAdaptiveRepairResourceData (src/unnamed/part_010). -/
structure AdaptiveRepairData where
  clusterName : String
  clusterType : String
  active : Bool
  parallelism : Int
  gcGraceThreshold : Int
  filterTwcsTables : Bool
  segmentRetries : Int
  segmentsPerVnode : Int
  segmentTargetSizeMB : Int
  blacklistedTables : List String
  deriving DecidableEq, Repr

/-! ### Identity resolution

Each reconciler locates its object inside the fetched collection with a
first-match linear scan; absence is a regular result, not an error. -/

def findShellByName (checks : List ShellHealthcheck) (name : String) : Option ShellHealthcheck :=
  checks.find? (fun c => c.name == name)

def findHTTPByName (checks : List HTTPHealthcheck) (name : String) : Option HTTPHealthcheck :=
  checks.find? (fun c => c.name == name)

def findTCPByName (checks : List TCPHealthcheck) (name : String) : Option TCPHealthcheck :=
  checks.find? (fun c => c.name == name)

def findCollectorByName (collectors : List LogCollectorConfig) (name : String) :
    Option LogCollectorConfig :=
  collectors.find? (fun c => c.name == name)

def findRuleByID (rules : List MetricAlertRule) (id : String) : Option MetricAlertRule :=
  rules.find? (fun r => r.id == id)

def findBackupByTag (backups : List CassandraBackup) (tag : String) : Option CassandraBackup :=
  backups.find? (fun b => b.tag == tag)

/-- Go strings.EqualFold, modelled by lower-casing both sides character by
character (adequate for the ASCII identifiers this provider handles). -/
def eqFold (a b : String) : Bool := a.data.map Char.toLower == b.data.map Char.toLower

/-- Go map indexing def.Params["name"], which yields the zero value "" when
the key is missing. -/
def lookupParam (params : List (String × String)) (key : String) : String :=
  match params.find? (fun kv => kv.1 == key) with
  | some kv => kv.2
  | none => ""

/-- findIntegrationID (src/resource_alert_route.go lines 111-118): first
definition whose type and name param match case-insensitively. -/
def findIntegrationID (defs : List IntegrationDefinition) (intName intType : String) :
    Option String :=
  (defs.find? (fun d =>
    eqFold d.type intType && eqFold (lookupParam d.params "name") intName)).map (fun d => d.id)

/-- routeTypeMap (src/resource_alert_route.go lines 22-31). -/
def routeTypeMap : List (String × String) :=
  [("global", "Global"), ("metrics", "Metrics"), ("backups", "Backups"),
   ("servicechecks", "Service%20Checks"), ("nodes", "Nodes"), ("commands", "Commands"),
   ("repairs", "Repairs"), ("rollingrestart", "Rolling%20Restart")]

def getAPIRouteType (tfType : String) : Option String :=
  (routeTypeMap.find? (fun kv => kv.1 == tfType)).map (fun kv => kv.2)

/-! ### Read verb, per resource kind

A read step consumes the stored record and the outcome of the remote
fetch; it either surfaces the fetch error, removes the record from state
(RemoveResource), or stores the record refreshed from remote values. -/

inductive ReadStep (σ : Type) where
  | errored
  | removed
  | updated (d : σ)
  deriving DecidableEq, Repr

/-- shellHealthcheckResource.Read (src/resource_healthcheck_shell.go lines 170-212). -/
def shellHealthcheckRead (fetched : Except WriteErr HealthchecksResponse)
    (data : ShellHealthcheckData) : ReadStep ShellHealthcheckData :=
  match fetched with
  | .error _ => .errored
  | .ok healthchecks =>
    match findShellByName healthchecks.shellChecks data.name with
    | none => .removed
    | some c => .updated { data with id := c.id, script := c.script, shell := c.shell,
                                     interval := c.interval, timeout := c.timeout,
                                     readonly := c.readonly }

/-- tcpHealthcheckResource.Read (third document of src/client/http_client.go). -/
def tcpHealthcheckRead (fetched : Except WriteErr HealthchecksResponse)
    (data : TCPHealthcheckData) : ReadStep TCPHealthcheckData :=
  match fetched with
  | .error _ => .errored
  | .ok healthchecks =>
    match findTCPByName healthchecks.tcpChecks data.name with
    | none => .removed
    | some c => .updated { data with id := c.id, tcp := c.tcp, interval := c.interval,
                                     timeout := c.timeout, readonly := c.readonly,
                                     supportedAgentTypes := c.supportedAgentType }

/-- httpHealthcheckResource.Read (src/unnamed/part_010 lines 224-277). -/
def httpHealthcheckRead (fetched : Except WriteErr HealthchecksResponse)
    (data : HTTPHealthcheckData) : ReadStep HTTPHealthcheckData :=
  match fetched with
  | .error _ => .errored
  | .ok healthchecks =>
    match findHTTPByName healthchecks.httpChecks data.name with
    | none => .removed
    | some c => .updated { data with id := c.id, url := c.url, method := c.method,
                                     body := c.body, expectedStatus := c.expectedStatus,
                                     interval := c.interval, timeout := c.timeout,
                                     readonly := c.readonly, headers := c.headers,
                                     supportedAgentTypes := c.supportedAgentType }

/-- logCollectorResource.Read (src/resource_logcollector.go lines 198-246). -/
def logCollectorRead (fetched : Except WriteErr (List LogCollectorConfig))
    (data : LogCollectorData) : ReadStep LogCollectorData :=
  match fetched with
  | .error _ => .errored
  | .ok collectors =>
    match findCollectorByName collectors data.name with
    | none => .removed
    | some c => .updated { data with uuid := c.uuid, filename := c.filename,
                                     dateFormat := c.dateFormat, infoRegex := c.infoRegex,
                                     warningRegex := c.warningRegex, errorRegex := c.errorRegex,
                                     debugRegex := c.debugRegex,
                                     errorAlertThreshold := c.errorAlertThreshold,
                                     supportedAgentTypes := c.supportedAgentType }

/-- schemaResource.Read (src/unnamed/part_000 lines 133-163): a nil GetSchema
result removes the record; only the computed id and version are refreshed. -/
def schemaRead (fetched : Except WriteErr (Option SchemaRegistryVersionedSchema))
    (data : SchemaData) : ReadStep SchemaData :=
  match fetched with
  | .error _ => .errored
  | .ok none => .removed
  | .ok (some result) => .updated { data with schemaId := result.id, version := result.version }

/-- connectorResource.Read (src/unnamed/part_009 lines 124-160): a nil
GetConnector result removes the record; the config is refreshed with the
server-added "name" key filtered out. -/
def connectorRead (fetched : Except WriteErr (Option KafkaConnectorResponse))
    (data : ConnectorData) : ReadStep ConnectorData :=
  match fetched with
  | .error _ => .errored
  | .ok none => .removed
  | .ok (some result) =>
      .updated { data with config := result.config.filter (fun kv => kv.1 != "name"),
                           type := result.type }

/-- Filter re-population switch of metricAlertRuleResource.Read
(src/resource_metric_alert_rule.go lines 293-317). -/
def applyMetricFilter (d : MetricAlertRuleData) (f : MetricAlertFilter) :
    MetricAlertRuleData :=
  if f.name = "dc" then { d with dc := f.value }
  else if f.name = "rack" then { d with rack := f.value }
  else if f.name = "host_id" then { d with hostId := f.value }
  else if f.name = "scope" then { d with scope := f.value }
  else if f.name = "keyspace" then { d with keyspace := f.value }
  else if f.name = "percentile" then { d with percentile := f.value }
  else if f.name = "consistency" then { d with consistency := f.value }
  else if f.name = "groupBy" then { d with groupBy := f.value }
  else d

/-- metricAlertRuleResource.Read (src/resource_metric_alert_rule.go lines 256-321). -/
def metricAlertRuleRead (fetched : Except WriteErr (List MetricAlertRule))
    (data : MetricAlertRuleData) : ReadStep MetricAlertRuleData :=
  match fetched with
  | .error _ => .errored
  | .ok rules =>
    match findRuleByID rules data.id with
    | none => .removed
    | some r =>
        let d0 := { data with
          name := r.alert, metric := r.expr, operator := r.operator,
          warningValue := r.warningValue, criticalValue := r.criticalValue,
          duration := r.forDuration, description := r.annotations.description,
          dc := [], rack := [], hostId := [], scope := [], keyspace := [],
          percentile := [], consistency := [], groupBy := [] }
        .updated (r.filters.foldl applyMetricFilter d0)

/-- cassandraBackupResource.Read (src/unnamed/part_008 lines 705-777). -/
def cassandraBackupRead (fetched : Except WriteErr (List CassandraBackup))
    (data : CassandraBackupData) : ReadStep CassandraBackupData :=
  match fetched with
  | .error _ => .errored
  | .ok backups =>
    match findBackupByTag backups data.tag with
    | none => .removed
    | some b =>
        let d0 := { data with
          id := b.id, localRetention := b.localRetentionDuration,
          remote := b.remote, schedule := b.schedule, scheduleExpr := b.scheduleExpr,
          timeout := b.timeout, transfers := b.transfers, tpsLimit := b.tpsLimit,
          bwLimit := b.bwLimit, datacenters := b.datacenters,
          keyspaces := b.keyspaces, tables := b.tables, nodes := b.nodes }
        .updated (if b.remote then
          { d0 with
            remoteType := b.remoteType, remotePath := b.remotePath,
            remoteRetention := b.remoteRetentionDuration,
            remoteConfig := b.remoteConfig }
          else d0)

/-- Override refresh inside the routing loop of alertRouteResource.Read
(src/resource_alert_route.go lines 220-230). -/
def alertRouteReadOverride (d : AlertRouteData) (routing : IntegrationRouting) :
    AlertRouteData :=
  if d.routeType ≠ "global" then
    if d.severity.toLower = "info" then { d with enableOverride := routing.overrideInfo }
    else if d.severity.toLower = "warning" then { d with enableOverride := routing.overrideWarning }
    else if d.severity.toLower = "error" then { d with enableOverride := routing.overrideError }
    else d
  else d

/-- alertRouteResource.Read (src/resource_alert_route.go lines 179-242): a
missing integration or a missing route both remove the record. -/
def alertRouteRead (fetched : Except WriteErr IntegrationsResponse) (d : AlertRouteData) :
    ReadStep AlertRouteData :=
  match getAPIRouteType d.routeType with
  | none => .errored
  | some apiRouteType =>
    match fetched with
    | .error _ => .errored
    | .ok integrations =>
      match findIntegrationID integrations.definitions d.integrationName d.integrationType with
      | none => .removed
      | some integrationID =>
        match integrations.routings.find?
            (fun r => r.type == apiRouteType.replace "%20" " ") with
        | none => .removed
        | some routing =>
          if routing.routing.any
              (fun rt => rt.id == integrationID && eqFold rt.severity d.severity) then
            .updated (alertRouteReadOverride d routing)
          else .removed

/-- topicResource.Read (src/resource_kafka_topic.go lines 111-124): no remote
fetch is performed; the stored record is written back unchanged. -/
def topicRead (data : TopicData) : ReadStep TopicData := .updated data

/-- aclResource.Read (src/resource_acl.go lines 139-154): no remote fetch is
performed; the stored record is written back unchanged. -/
def aclRead (data : ACLData) : ReadStep ACLData := .updated data

/-! ### Collection merge operations for the array-backed kinds

Create appends the freshly built element to the fetched collection,
update replaces the first element whose name matches the stored state,
delete filters out every element carrying the record's identity; in each
case the whole collection is then written back wholesale. -/

/-- Element built by shellHealthcheckResource.Create (lines 130-149): fresh
UUID, plan fields, zeroed Integrations. -/
def newShellCheck (data : ShellHealthcheckData) (newID : String) : ShellHealthcheck :=
  { id := newID, name := data.name, script := data.script, shell := data.shell,
    interval := data.interval, timeout := data.timeout, readonly := data.readonly,
    integrations := { type := "", routing := [], overrideInfo := false,
                      overrideWarning := false, overrideError := false } }

/-- Append performed by shellHealthcheckResource.Create (line 152). -/
def shellCreateMerge (existing : List ShellHealthcheck) (data : ShellHealthcheckData)
    (newID : String) : List ShellHealthcheck :=
  existing ++ [newShellCheck data newID]

/-- Element built by tcpHealthcheckResource.Create (third document of
src/client/http_client.go, lines 2482-2498). -/
def newTCPCheck (data : TCPHealthcheckData) (newID : String) : TCPHealthcheck :=
  { id := newID, name := data.name, tcp := data.tcp, interval := data.interval,
    timeout := data.timeout, readonly := data.readonly,
    supportedAgentType := data.supportedAgentTypes,
    integrations := { type := "", routing := [], overrideInfo := false,
                      overrideWarning := false, overrideError := false } }

/-- Append performed by tcpHealthcheckResource.Create (line 2501). -/
def tcpCreateMerge (existing : List TCPHealthcheck) (data : TCPHealthcheckData)
    (newID : String) : List TCPHealthcheck :=
  existing ++ [newTCPCheck data newID]

/-- Name filter of shellHealthcheckResource.Delete (lines 296-303): every
element whose name differs from the record's name is kept. -/
def shellDeleteMerge (checks : List ShellHealthcheck) (name : String) :
    List ShellHealthcheck :=
  checks.filter (fun c => c.name != name)

/-- Name filter of tcpHealthcheckResource.Delete (lines 2656-2663). -/
def tcpDeleteMerge (checks : List TCPHealthcheck) (name : String) : List TCPHealthcheck :=
  checks.filter (fun c => c.name != name)

/-- UUID filter of logCollectorResource.Delete (src/resource_logcollector.go
lines 340-346). -/
def logCollectorDeleteMerge (collectors : List LogCollectorConfig) (uuid : String) :
    List LogCollectorConfig :=
  collectors.filter (fun c => c.uuid != uuid)

/-- Shared shape of the update loops: replace the first element satisfying
the predicate with its rewrite and report whether a match was found; every
other element is passed through unchanged (the Go loop breaks after the
first hit). -/
def replaceFirst {α : Type} (p : α → Bool) (f : α → α) : List α → List α × Bool
  | [] => ([], false)
  | c :: rest =>
    if p c then (f c :: rest, true)
    else
      let r := replaceFirst p f rest
      (c :: r.1, r.2)

/-- Update loop of shellHealthcheckResource.Update (lines 239-256): the
element keeps its current id and Integrations, all other fields come from
the plan. -/
def shellUpdateMerge (checks : List ShellHealthcheck) (stateName : String)
    (plan : ShellHealthcheckData) : List ShellHealthcheck × Bool :=
  replaceFirst (fun c => c.name == stateName)
    (fun c => { id := c.id, name := plan.name, script := plan.script, shell := plan.shell,
                interval := plan.interval, timeout := plan.timeout,
                readonly := plan.readonly, integrations := c.integrations }) checks

/-- Update loop of tcpHealthcheckResource.Update (lines 2599-2616). -/
def tcpUpdateMerge (checks : List TCPHealthcheck) (stateName : String)
    (plan : TCPHealthcheckData) : List TCPHealthcheck × Bool :=
  replaceFirst (fun c => c.name == stateName)
    (fun c => { id := c.id, name := plan.name, tcp := plan.tcp, interval := plan.interval,
                timeout := plan.timeout, readonly := plan.readonly,
                supportedAgentType := plan.supportedAgentTypes,
                integrations := c.integrations }) checks

/-- Element built by httpHealthcheckResource.Create (src/unnamed/part_010
lines 165-204): fresh UUID, plan fields, zeroed Integrations. -/
def newHTTPCheck (data : HTTPHealthcheckData) (newID : String) : HTTPHealthcheck :=
  { id := newID, name := data.name, url := data.url, method := data.method,
    headers := data.headers, body := data.body, expectedStatus := data.expectedStatus,
    interval := data.interval, timeout := data.timeout, readonly := data.readonly,
    supportedAgentType := data.supportedAgentTypes,
    integrations := { type := "", routing := [], overrideInfo := false,
                      overrideWarning := false, overrideError := false } }

/-- Append performed by httpHealthcheckResource.Create (line 207). -/
def httpCreateMerge (existing : List HTTPHealthcheck) (data : HTTPHealthcheckData)
    (newID : String) : List HTTPHealthcheck :=
  existing ++ [newHTTPCheck data newID]

/-- Name filter of httpHealthcheckResource.Delete (src/unnamed/part_010
lines 381-387). -/
def httpDeleteMerge (checks : List HTTPHealthcheck) (name : String) :
    List HTTPHealthcheck :=
  checks.filter (fun c => c.name != name)

/-- Update loop of httpHealthcheckResource.Update (src/unnamed/part_010
lines 328-345): the element keeps its current id and Integrations. -/
def httpUpdateMerge (checks : List HTTPHealthcheck) (stateName : String)
    (plan : HTTPHealthcheckData) : List HTTPHealthcheck × Bool :=
  replaceFirst (fun c => c.name == stateName)
    (fun c => { id := c.id, name := plan.name, url := plan.url, method := plan.method,
                headers := plan.headers, body := plan.body,
                expectedStatus := plan.expectedStatus, interval := plan.interval,
                timeout := plan.timeout, readonly := plan.readonly,
                supportedAgentType := plan.supportedAgentTypes,
                integrations := c.integrations }) checks

/-- Element built by logCollectorResource.Create (src/resource_logcollector.go
lines 165-177): fresh UUID, plan fields. -/
def newLogCollector (data : LogCollectorData) (newUUID : String) : LogCollectorConfig :=
  { name := data.name, uuid := newUUID, filename := data.filename,
    dateFormat := data.dateFormat, infoRegex := data.infoRegex,
    warningRegex := data.warningRegex, errorRegex := data.errorRegex,
    debugRegex := data.debugRegex, supportedAgentType := data.supportedAgentTypes,
    errorAlertThreshold := data.errorAlertThreshold }

/-- Append performed by logCollectorResource.Create (line 180). -/
def logCollectorCreateMerge (existing : List LogCollectorConfig) (data : LogCollectorData)
    (newUUID : String) : List LogCollectorConfig :=
  existing ++ [newLogCollector data newUUID]

/-- Update loop of logCollectorResource.Update (src/resource_logcollector.go
lines 281-300): matches by name and keeps the element's current UUID. -/
def logCollectorUpdateMerge (collectors : List LogCollectorConfig) (stateName : String)
    (plan : LogCollectorData) : List LogCollectorConfig × Bool :=
  replaceFirst (fun c => c.name == stateName)
    (fun c => { name := plan.name, uuid := c.uuid, filename := plan.filename,
                dateFormat := plan.dateFormat, infoRegex := plan.infoRegex,
                warningRegex := plan.warningRegex, errorRegex := plan.errorRegex,
                debugRegex := plan.debugRegex,
                supportedAgentType := plan.supportedAgentTypes,
                errorAlertThreshold := plan.errorAlertThreshold }) collectors

/-- shellHealthcheckResource.Delete as a whole step: fetch the collection,
drop the record's elements by name, write the collection back. -/
def shellHealthcheckDelete (fetched : Except WriteErr HealthchecksResponse)
    (data : ShellHealthcheckData)
    (put : HealthchecksResponse → Except WriteErr Unit) : Except WriteErr Unit :=
  match fetched with
  | .error e => .error e
  | .ok existing =>
      put { existing with shellChecks := shellDeleteMerge existing.shellChecks data.name }

/-- tcpHealthcheckResource.Delete as a whole step (third document of
src/client/http_client.go, lines 2639-2673). -/
def tcpHealthcheckDelete (fetched : Except WriteErr HealthchecksResponse)
    (data : TCPHealthcheckData)
    (put : HealthchecksResponse → Except WriteErr Unit) : Except WriteErr Unit :=
  match fetched with
  | .error e => .error e
  | .ok existing =>
      put { existing with tcpChecks := tcpDeleteMerge existing.tcpChecks data.name }

/-- httpHealthcheckResource.Delete as a whole step (src/unnamed/part_010
lines 363-397). -/
def httpHealthcheckDelete (fetched : Except WriteErr HealthchecksResponse)
    (data : HTTPHealthcheckData)
    (put : HealthchecksResponse → Except WriteErr Unit) : Except WriteErr Unit :=
  match fetched with
  | .error e => .error e
  | .ok existing =>
      put { existing with httpChecks := httpDeleteMerge existing.httpChecks data.name }

/-- logCollectorResource.Delete as a whole step (src/resource_logcollector.go
lines 323-356): the element is dropped by UUID, not name. -/
def logCollectorDelete (fetched : Except WriteErr (List LogCollectorConfig))
    (data : LogCollectorData)
    (put : List LogCollectorConfig → Except WriteErr Unit) : Except WriteErr Unit :=
  match fetched with
  | .error e => .error e
  | .ok existing => put (logCollectorDeleteMerge existing data.uuid)

structure AlertRouteDeleteOutcome where
  removeCalls : Nat
  errored : Bool
  deriving DecidableEq, Repr

/-- alertRouteResource.Delete (src/resource_alert_route.go lines 317-351): an
unknown route type or a failed integrations fetch is an error; a missing
integration is treated as already deleted — return with no remote call and
no error; otherwise one RemoveIntegrationRoute call is made and its failure
is surfaced. -/
def alertRouteDelete (fetched : Except WriteErr IntegrationsResponse)
    (d : AlertRouteData)
    (removeResult : String → Except WriteErr Unit) : AlertRouteDeleteOutcome :=
  match getAPIRouteType d.routeType with
  | none => { removeCalls := 0, errored := true }
  | some _ =>
    match fetched with
    | .error _ => { removeCalls := 0, errored := true }
    | .ok integrations =>
      match findIntegrationID integrations.definitions d.integrationName d.integrationType with
      | none => { removeCalls := 0, errored := false }
      | some integrationID =>
        match removeResult integrationID with
        | .error _ => { removeCalls := 1, errored := true }
        | .ok _ => { removeCalls := 1, errored := false }

/-! ### Update verb for topics and ACLs -/

inductive TopicGatewayCall where
  | updateTopicConfig (topicName : String) (clusterName : String)
      (partitions : Int) (replicationFactor : Int) (configs : List KafkaUpdateTopicConfig)
  deriving DecidableEq, Repr

structure TopicUpdateOutcome where
  calls : List TopicGatewayCall
  errored : Bool
  stateSet : Option TopicData
  deriving DecidableEq, Repr

/-- Config list built by topicResource.Update (lines 154-157): Terraform
underscores become dots, every entry is a SET op. -/
def topicUpdateConfigList (plan : TopicData) : List KafkaUpdateTopicConfig :=
  plan.config.map (fun kv => { key := kv.1.replace "_" ".", value := kv.2, op := "SET" })

/-- topicResource.Update (src/resource_kafka_topic.go lines 126-167):
immutable-field changes abort with an error before any gateway call;
otherwise one UpdateTopicConfig call is made and, on success, the plan is
stored. `stateSet = none` means resp.State.Set was never reached, leaving
the stored record unchanged. -/
def topicUpdate (plan state : TopicData) (updateResult : Except WriteErr Unit) :
    TopicUpdateOutcome :=
  if plan.partitions ≠ state.partitions then
    { calls := [], errored := true, stateSet := none }
  else if plan.replicationFactor ≠ state.replicationFactor then
    { calls := [], errored := true, stateSet := none }
  else
    let call := TopicGatewayCall.updateTopicConfig plan.name plan.clusterName
      plan.partitions plan.replicationFactor (topicUpdateConfigList plan)
    match updateResult with
    | .error _ => { calls := [call], errored := true, stateSet := none }
    | .ok _ => { calls := [call], errored := false, stateSet := some plan }

inductive ACLGatewayCall where
  | deleteACL (clusterName : String) (acl : KafkaACL)
  | createACL (clusterName : String) (acl : KafkaACL)
  deriving DecidableEq, Repr

structure ACLUpdateOutcome where
  calls : List ACLGatewayCall
  errored : Bool
  stateSet : Option ACLData
  deriving DecidableEq, Repr

/-- Seven-tuple extracted from a stored or planned ACL record
(src/resource_acl.go lines 175-183 and 191-199). -/
def aclFromData (d : ACLData) : KafkaACL :=
  { resourceType := d.resourceType, resourceName := d.resourceName,
    resourcePatternType := d.resourcePatternType, principal := d.principal,
    host := d.host, operation := d.operation, permissionType := d.permissionType }

/-- aclResource.Update (src/resource_acl.go lines 156-211): delete the old
7-tuple from state, then create the new 7-tuple from the plan; a delete
failure stops before the create, a create failure is surfaced with no
further state write. -/
def aclUpdate (plan state : ACLData) (deleteResult createResult : Except WriteErr Unit) :
    ACLUpdateOutcome :=
  let oldACL := aclFromData state
  match deleteResult with
  | .error _ =>
      { calls := [.deleteACL state.clusterName oldACL], errored := true, stateSet := none }
  | .ok _ =>
    let newACL := aclFromData plan
    match createResult with
    | .error _ =>
        { calls := [.deleteACL state.clusterName oldACL, .createACL plan.clusterName newACL],
          errored := true, stateSet := none }
    | .ok _ =>
        { calls := [.deleteACL state.clusterName oldACL, .createACL plan.clusterName newACL],
          errored := false, stateSet := some plan }

/-! ### Import identifier parsing

Go strings.Split(id, "/") over the identifier's characters: every slash
starts a new segment, empty segments are kept, and the empty identifier
yields one empty segment. -/

def splitOnSlash : List Char → List (List Char)
  | [] => [[]]
  | c :: rest =>
    match splitOnSlash rest with
    | [] => [[]]
    | seg :: segs => if c = '/' then [] :: seg :: segs else (c :: seg) :: segs

def importSegments (raw : String) : List String :=
  (splitOnSlash raw.data).map String.mk

/-- Result of an import invocation; `invalidId` is the immediate fatal
rejection of a wrong segment count, before any gateway call. -/
inductive ImportResult (α : Type) where
  | invalidId
  | invalidRouteType
  | fetchFailed
  | notFound
  | imported (fields : α)
  deriving DecidableEq, Repr

/-- topicResource.ImportState (src/resource_kafka_topic.go lines 190-229):
two segments (cluster_name/topic_name); on success every field including
the dot-to-underscore converted config is populated from the fetched
topic.  The first component counts gateway calls. -/
def topicImport (raw : String) (gw : String → String → Except WriteErr TopicInfo) :
    Nat × ImportResult TopicData :=
  let parts := importSegments raw
  if h : parts.length = 2 then
    let clusterName := parts[0]
    let topicName := parts[1]
    match gw topicName clusterName with
    | .error _ => (1, .fetchFailed)
    | .ok topic =>
        (1, .imported { name := topic.name, clusterName := clusterName,
                        partitions := topic.partitions,
                        replicationFactor := topic.replicationFactor,
                        config := topic.config.map
                          (fun c => (c.name.replace "." "_", c.value)) })
  else (0, .invalidId)

/-- aclResource.ImportState (src/resource_acl.go lines 244-275): eight
segments populate the record directly; no gateway call is ever made. -/
def aclImport (raw : String) : Nat × ImportResult ACLData :=
  let parts := importSegments raw
  if h : parts.length = 8 then
    (0, .imported { clusterName := parts[0], resourceType := parts[1],
                    resourceName := parts[2], resourcePatternType := parts[3],
                    principal := parts[4], host := parts[5],
                    operation := parts[6], permissionType := parts[7] })
  else (0, .invalidId)

/-- shellHealthcheckResource.ImportState (lines 317-369): two segments, then
a healthchecks fetch and a name lookup; a missing check is a fatal error. -/
def shellHealthcheckImport (raw : String)
    (gw : String → Except WriteErr HealthchecksResponse) :
    Nat × ImportResult ShellHealthcheckData :=
  let parts := importSegments raw
  if h : parts.length = 2 then
    let clusterName := parts[0]
    let healthcheckName := parts[1]
    match gw clusterName with
    | .error _ => (1, .fetchFailed)
    | .ok healthchecks =>
      match findShellByName healthchecks.shellChecks healthcheckName with
      | none => (1, .notFound)
      | some c =>
          (1, .imported { clusterName := clusterName, name := c.name, id := c.id,
                          script := c.script, shell := c.shell, interval := c.interval,
                          timeout := c.timeout, readonly := c.readonly })
  else (0, .invalidId)

/-- httpHealthcheckResource.ImportState (src/unnamed/part_010 lines 401-457). -/
def httpHealthcheckImport (raw : String)
    (gw : String → Except WriteErr HealthchecksResponse) :
    Nat × ImportResult HTTPHealthcheckData :=
  let parts := importSegments raw
  if h : parts.length = 2 then
    let clusterName := parts[0]
    let healthcheckName := parts[1]
    match gw clusterName with
    | .error _ => (1, .fetchFailed)
    | .ok healthchecks =>
      match findHTTPByName healthchecks.httpChecks healthcheckName with
      | none => (1, .notFound)
      | some c =>
          (1, .imported { clusterName := clusterName, name := c.name, id := c.id,
                          url := c.url, method := c.method, headers := c.headers,
                          body := c.body, expectedStatus := c.expectedStatus,
                          interval := c.interval, timeout := c.timeout,
                          readonly := c.readonly,
                          supportedAgentTypes := c.supportedAgentType })
  else (0, .invalidId)

/-- logCollectorResource.ImportState (src/resource_logcollector.go lines
360-416). -/
def logCollectorImport (raw : String)
    (gw : String → Except WriteErr (List LogCollectorConfig)) :
    Nat × ImportResult LogCollectorData :=
  let parts := importSegments raw
  if h : parts.length = 2 then
    let clusterName := parts[0]
    let collectorName := parts[1]
    match gw clusterName with
    | .error _ => (1, .fetchFailed)
    | .ok collectors =>
      match findCollectorByName collectors collectorName with
      | none => (1, .notFound)
      | some c =>
          (1, .imported { clusterName := clusterName, name := c.name, uuid := c.uuid,
                          filename := c.filename, dateFormat := c.dateFormat,
                          infoRegex := c.infoRegex, warningRegex := c.warningRegex,
                          errorRegex := c.errorRegex, debugRegex := c.debugRegex,
                          errorAlertThreshold := c.errorAlertThreshold,
                          supportedAgentTypes := c.supportedAgentType })
  else (0, .invalidId)

/-- schemaResource.ImportState (src/unnamed/part_000 lines 229-269): two
segments; a nil GetSchema result is a fatal not-found error. -/
def schemaImport (raw : String)
    (gw : String → String → Except WriteErr (Option SchemaRegistryVersionedSchema)) :
    Nat × ImportResult SchemaData :=
  let parts := importSegments raw
  if h : parts.length = 2 then
    let clusterName := parts[0]
    let subject := parts[1]
    match gw clusterName subject with
    | .error _ => (1, .fetchFailed)
    | .ok none => (1, .notFound)
    | .ok (some info) =>
        (1, .imported { clusterName := clusterName, subject := subject,
                        schema := info.schema, schemaType := info.type,
                        schemaId := info.id, version := info.version })
  else (0, .invalidId)

/-- connectorResource.ImportState (src/unnamed/part_009 lines 229-270). -/
def connectorImport (raw : String)
    (gw : String → String → String → Except WriteErr (Option KafkaConnectorResponse)) :
    Nat × ImportResult ConnectorData :=
  let parts := importSegments raw
  if h : parts.length = 3 then
    let clusterName := parts[0]
    let connectClusterName := parts[1]
    let connectorName := parts[2]
    match gw clusterName connectClusterName connectorName with
    | .error _ => (1, .fetchFailed)
    | .ok none => (1, .notFound)
    | .ok (some connector) =>
        (1, .imported { clusterName := clusterName,
                        connectClusterName := connectClusterName,
                        name := connectorName,
                        config := connector.config.filter (fun kv => kv.1 != "name"),
                        type := connector.type })
  else (0, .invalidId)

/-- metricAlertRuleResource.ImportState (src/resource_metric_alert_rule.go
lines 373-440): three segments, fetch, id lookup, then the record is
populated like Read does, filters included. -/
def metricAlertRuleImport (raw : String)
    (gw : String → String → Except WriteErr (List MetricAlertRule)) :
    Nat × ImportResult MetricAlertRuleData :=
  let parts := importSegments raw
  if h : parts.length = 3 then
    let clusterType := parts[0]
    let clusterName := parts[1]
    let alertID := parts[2]
    match gw clusterType clusterName with
    | .error _ => (1, .fetchFailed)
    | .ok rules =>
      match findRuleByID rules alertID with
      | none => (1, .notFound)
      | some r =>
          let d0 : MetricAlertRuleData :=
            { clusterName := clusterName, clusterType := clusterType, id := r.id,
              name := r.alert, metric := r.expr, operator := r.operator,
              warningValue := r.warningValue, criticalValue := r.criticalValue,
              duration := r.forDuration, description := r.annotations.description,
              dc := [], rack := [], hostId := [], scope := [], keyspace := [],
              percentile := [], consistency := [], groupBy := [] }
          (1, .imported (r.filters.foldl applyMetricFilter d0))
  else (0, .invalidId)

/-- cassandraBackupResource.ImportState (src/unnamed/part_008 lines 884-965):
three segments, fetch, tag lookup; every field, remote ones included, is
populated from the found backup. -/
def cassandraBackupImport (raw : String)
    (gw : String → String → Except WriteErr (List CassandraBackup)) :
    Nat × ImportResult CassandraBackupData :=
  let parts := importSegments raw
  if h : parts.length = 3 then
    let clusterType := parts[0]
    let clusterName := parts[1]
    let tag := parts[2]
    match gw clusterType clusterName with
    | .error _ => (1, .fetchFailed)
    | .ok backups =>
      match findBackupByTag backups tag with
      | none => (1, .notFound)
      | some b =>
          (1, .imported { clusterName := clusterName, clusterType := clusterType,
                          id := b.id, tag := b.tag, schedule := b.schedule,
                          scheduleExpr := b.scheduleExpr,
                          localRetention := b.localRetentionDuration,
                          remote := b.remote, remoteType := b.remoteType,
                          remotePath := b.remotePath,
                          remoteRetention := b.remoteRetentionDuration,
                          remoteConfig := b.remoteConfig, timeout := b.timeout,
                          transfers := b.transfers, tpsLimit := b.tpsLimit,
                          bwLimit := b.bwLimit, datacenters := b.datacenters,
                          keyspaces := b.keyspaces, tables := b.tables,
                          nodes := b.nodes })
  else (0, .invalidId)

/-- Override state computed by alertRouteResource.ImportState (lines
393-410): false unless the route type is non-global and the matching
routing carries the severity's override flag. -/
def alertRouteImportOverride (routeType severity : String)
    (routings : List IntegrationRouting) : Bool :=
  if routeType ≠ "global" then
    match getAPIRouteType routeType with
    | none => false
    | some apiRouteType =>
      match routings.find? (fun r => r.type == apiRouteType.replace "%20" " ") with
      | none => false
      | some routing =>
        if severity.toLower = "info" then routing.overrideInfo
        else if severity.toLower = "warning" then routing.overrideWarning
        else if severity.toLower = "error" then routing.overrideError
        else false
  else false

/-- alertRouteResource.ImportState (src/resource_alert_route.go lines
355-420): six segments, route-type validation before any gateway call,
then an integrations fetch and integration lookup. -/
def alertRouteImport (raw : String)
    (gw : String → String → Except WriteErr IntegrationsResponse) :
    Nat × ImportResult AlertRouteData :=
  let parts := importSegments raw
  if h : parts.length = 6 then
    let clusterType := parts[0]
    let clusterName := parts[1]
    let routeType := parts[2]
    let severity := parts[3]
    let integrationType := parts[4]
    let integrationName := parts[5]
    match getAPIRouteType routeType with
    | none => (0, .invalidRouteType)
    | some _ =>
      match gw clusterType clusterName with
      | .error _ => (1, .fetchFailed)
      | .ok integrations =>
        match findIntegrationID integrations.definitions integrationName integrationType with
        | none => (1, .notFound)
        | some _ =>
            (1, .imported { clusterName := clusterName, clusterType := clusterType,
                            routeType := routeType, severity := severity,
                            integrationType := integrationType,
                            integrationName := integrationName,
                            enableOverride := alertRouteImportOverride routeType severity
                              integrations.routings })
  else (0, .invalidId)

/-- cassandraAdaptiveRepairResource.ImportState (src/unnamed/part_010 lines
759-794): two segments, then a settings fetch. -/
def adaptiveRepairImport (raw : String)
    (gw : String → String → Except WriteErr AdaptiveRepairSettings) :
    Nat × ImportResult AdaptiveRepairData :=
  let parts := importSegments raw
  if h : parts.length = 2 then
    let clusterType := parts[0]
    let clusterName := parts[1]
    match gw clusterType clusterName with
    | .error _ => (1, .fetchFailed)
    | .ok settings =>
        (1, .imported { clusterName := clusterName, clusterType := clusterType,
                        active := settings.active,
                        parallelism := settings.tableParallelism,
                        gcGraceThreshold := settings.gcGraceThreshold,
                        filterTwcsTables := settings.filterTWCSTables,
                        segmentRetries := settings.segmentRetries,
                        segmentsPerVnode := settings.segmentsPerVnode,
                        segmentTargetSizeMB := settings.segmentTargetSizeMB,
                        blacklistedTables := settings.blacklistedTables })
  else (0, .invalidId)

/-! ### Helper lemmas -/

/-- Shared shape of every write-style gateway method: success exactly on the
guard condition, the specific error value otherwise, and success statuses
confined to 2xx whenever the guard implies it. -/
theorem ifStatusSpec {c : Prop} [Decidable c] (s : Nat) (e : WriteErr)
    (h2xx : c → 200 ≤ s ∧ s < 300) :
    ((if c then (Except.ok () : Except WriteErr Unit) else .error e) = .ok () ↔ c) ∧
    ((if c then (Except.ok () : Except WriteErr Unit) else .error e) = .ok () →
      200 ≤ s ∧ s < 300) ∧
    (¬ c → (if c then (Except.ok () : Except WriteErr Unit) else .error e) = .error e) := by
  by_cases h : c
  · refine ⟨by simp [h], fun _ => h2xx h, fun hn => absurd h hn⟩
  · refine ⟨by simp [h], by simp [h], fun _ => by simp [h]⟩

/-! ### Claims C5, C6: gateway status classification -/

/-- C5 counterexample: the claim says every read-style operation maps 404 to
an absent result without error, but GetTopic surfaces 404 as an error. -/
theorem getTopic404IsError :
    getTopicRead 404 = ReadOutcome.failure 404 ∧ getTopicRead 404 ≠ ReadOutcome.absent := by
  exact ⟨rfl, by decide⟩

/-- C5 (amended): only the schema and connector read operations classify an
HTTP 404 as an absent result without error; every other read-style operation
and every write-style operation surfaces 404 as an error carrying the
status. -/
theorem status404Classification :
    getSchemaRead 404 = ReadOutcome.absent ∧
    (∀ present : Bool, getConnectorRead 404 present = ReadOutcome.absent) ∧
    getTopicRead 404 = ReadOutcome.failure 404 ∧
    getTopicsRead 404 = ReadOutcome.failure 404 ∧
    getACLsRead 404 = ReadOutcome.failure 404 ∧
    getHealthchecksRead 404 = ReadOutcome.failure 404 ∧
    getLogCollectorsRead 404 = ReadOutcome.failure 404 ∧
    getAlertRulesRead 404 = ReadOutcome.failure 404 ∧
    getCassandraBackupsRead 404 = ReadOutcome.failure 404 ∧
    getIntegrationsRead 404 = ReadOutcome.failure 404 ∧
    getAdaptiveRepairRead 404 = ReadOutcome.failure 404 ∧
    (∀ body, createTopicResult 404 body = .error ⟨404, some body⟩) ∧
    deleteTopicResult 404 = .error ⟨404, none⟩ ∧
    updateTopicConfigResult 404 = .error ⟨404, none⟩ ∧
    createACLResult 404 = .error ⟨404, none⟩ ∧
    deleteACLResult 404 = .error ⟨404, none⟩ ∧
    (∀ body, createConnectorResult 404 body = .error ⟨404, some body⟩) ∧
    (∀ body, updateConnectorConfigResult 404 body = .error ⟨404, some body⟩) ∧
    (∀ body, deleteConnectorResult 404 body = .error ⟨404, some body⟩) ∧
    createSchemaResult 404 = .error ⟨404, none⟩ ∧
    deleteSchemaResult 404 = .error ⟨404, none⟩ ∧
    updateHealthchecksResult 404 = .error ⟨404, none⟩ ∧
    updateLogCollectorsResult 404 = .error ⟨404, none⟩ ∧
    (∀ body, updateAdaptiveRepairResult 404 body = .error ⟨404, some body⟩) ∧
    (∀ body, createCassandraBackupResult 404 body = .error ⟨404, some body⟩) ∧
    (∀ body, deleteCassandraBackupResult 404 body = .error ⟨404, some body⟩) ∧
    (∀ body, createOrUpdateAlertRuleResult 404 body = .error ⟨404, some body⟩) ∧
    (∀ body, deleteAlertRuleResult 404 body = .error ⟨404, some body⟩) ∧
    (∀ body, setIntegrationOverrideResult 404 body = .error ⟨404, some body⟩) ∧
    (∀ body, addIntegrationRouteResult 404 body = .error ⟨404, some body⟩) ∧
    (∀ body, removeIntegrationRouteResult 404 body = .error ⟨404, some body⟩) := by
  exact ⟨rfl, fun _ => rfl, rfl, rfl, rfl, rfl, rfl, rfl, rfl, rfl, rfl,
         fun _ => rfl, rfl, rfl, rfl, rfl, fun _ => rfl, fun _ => rfl, fun _ => rfl,
         rfl, rfl, rfl, rfl, fun _ => rfl, fun _ => rfl, fun _ => rfl, fun _ => rfl,
         fun _ => rfl, fun _ => rfl, fun _ => rfl, fun _ => rfl⟩

/-- C6 counterexample: the claim says every 2xx status is success for write
operations, but CreateTopic rejects 200 as an error. -/
theorem createTopic200IsError :
    createTopicResult 200 "created" = .error ⟨200, some "created"⟩ := rfl

/-- C6 (amended): every write-style gateway operation succeeds exactly on an
operation-specific set of 2xx statuses (201 alone for topic create, 204
alone for topic delete, 200 or 204 for ACL create, and so on) — any other
status, other 2xx statuses included, is surfaced as an error carrying the
status code; the error message quotes the response body for some operations
(topic create, connector and backup calls) and omits it for others (topic
delete, ACL calls, schema calls, collection replacements). -/
theorem writeStatusClassification :
    (∀ s b, (createTopicResult s b = .ok () ↔ s = 201) ∧
      (createTopicResult s b = .ok () → 200 ≤ s ∧ s < 300) ∧
      (¬ s = 201 → createTopicResult s b = .error ⟨s, some b⟩)) ∧
    (∀ s, (deleteTopicResult s = .ok () ↔ s = 204) ∧
      (deleteTopicResult s = .ok () → 200 ≤ s ∧ s < 300) ∧
      (¬ s = 204 → deleteTopicResult s = .error ⟨s, none⟩)) ∧
    (∀ s, (updateTopicConfigResult s = .ok () ↔ s = 204) ∧
      (updateTopicConfigResult s = .ok () → 200 ≤ s ∧ s < 300) ∧
      (¬ s = 204 → updateTopicConfigResult s = .error ⟨s, none⟩)) ∧
    (∀ s, (createACLResult s = .ok () ↔ s = 200 ∨ s = 204) ∧
      (createACLResult s = .ok () → 200 ≤ s ∧ s < 300) ∧
      (¬ (s = 200 ∨ s = 204) → createACLResult s = .error ⟨s, none⟩)) ∧
    (∀ s, (deleteACLResult s = .ok () ↔ s = 204) ∧
      (deleteACLResult s = .ok () → 200 ≤ s ∧ s < 300) ∧
      (¬ s = 204 → deleteACLResult s = .error ⟨s, none⟩)) ∧
    (∀ s b, (createConnectorResult s b = .ok () ↔ s = 200 ∨ s = 201) ∧
      (createConnectorResult s b = .ok () → 200 ≤ s ∧ s < 300) ∧
      (¬ (s = 200 ∨ s = 201) → createConnectorResult s b = .error ⟨s, some b⟩)) ∧
    (∀ s b, (updateConnectorConfigResult s b = .ok () ↔ s = 200) ∧
      (updateConnectorConfigResult s b = .ok () → 200 ≤ s ∧ s < 300) ∧
      (¬ s = 200 → updateConnectorConfigResult s b = .error ⟨s, some b⟩)) ∧
    (∀ s b, (deleteConnectorResult s b = .ok () ↔ s = 204 ∨ s = 200) ∧
      (deleteConnectorResult s b = .ok () → 200 ≤ s ∧ s < 300) ∧
      (¬ (s = 204 ∨ s = 200) → deleteConnectorResult s b = .error ⟨s, some b⟩)) ∧
    (∀ s, (createSchemaResult s = .ok () ↔ s = 200 ∨ s = 201) ∧
      (createSchemaResult s = .ok () → 200 ≤ s ∧ s < 300) ∧
      (¬ (s = 200 ∨ s = 201) → createSchemaResult s = .error ⟨s, none⟩)) ∧
    (∀ s, (deleteSchemaResult s = .ok () ↔ s = 200 ∨ s = 204) ∧
      (deleteSchemaResult s = .ok () → 200 ≤ s ∧ s < 300) ∧
      (¬ (s = 200 ∨ s = 204) → deleteSchemaResult s = .error ⟨s, none⟩)) ∧
    (∀ s, (updateHealthchecksResult s = .ok () ↔ s = 200 ∨ s = 204) ∧
      (updateHealthchecksResult s = .ok () → 200 ≤ s ∧ s < 300) ∧
      (¬ (s = 200 ∨ s = 204) → updateHealthchecksResult s = .error ⟨s, none⟩)) ∧
    (∀ s, (updateLogCollectorsResult s = .ok () ↔ s = 200 ∨ s = 204) ∧
      (updateLogCollectorsResult s = .ok () → 200 ≤ s ∧ s < 300) ∧
      (¬ (s = 200 ∨ s = 204) → updateLogCollectorsResult s = .error ⟨s, none⟩)) ∧
    (∀ s b, (updateAdaptiveRepairResult s b = .ok () ↔ s = 200 ∨ s = 204) ∧
      (updateAdaptiveRepairResult s b = .ok () → 200 ≤ s ∧ s < 300) ∧
      (¬ (s = 200 ∨ s = 204) → updateAdaptiveRepairResult s b = .error ⟨s, some b⟩)) ∧
    (∀ s b, (createCassandraBackupResult s b = .ok () ↔ s = 200 ∨ s = 201 ∨ s = 204) ∧
      (createCassandraBackupResult s b = .ok () → 200 ≤ s ∧ s < 300) ∧
      (¬ (s = 200 ∨ s = 201 ∨ s = 204) →
        createCassandraBackupResult s b = .error ⟨s, some b⟩)) ∧
    (∀ s b, (deleteCassandraBackupResult s b = .ok () ↔ s = 204 ∨ s = 200) ∧
      (deleteCassandraBackupResult s b = .ok () → 200 ≤ s ∧ s < 300) ∧
      (¬ (s = 204 ∨ s = 200) → deleteCassandraBackupResult s b = .error ⟨s, some b⟩)) ∧
    (∀ s b, (createOrUpdateAlertRuleResult s b = .ok () ↔ s = 200 ∨ s = 201) ∧
      (createOrUpdateAlertRuleResult s b = .ok () → 200 ≤ s ∧ s < 300) ∧
      (¬ (s = 200 ∨ s = 201) → createOrUpdateAlertRuleResult s b = .error ⟨s, some b⟩)) ∧
    (∀ s b, (deleteAlertRuleResult s b = .ok () ↔ s = 204 ∨ s = 200) ∧
      (deleteAlertRuleResult s b = .ok () → 200 ≤ s ∧ s < 300) ∧
      (¬ (s = 204 ∨ s = 200) → deleteAlertRuleResult s b = .error ⟨s, some b⟩)) ∧
    (∀ s b, (setIntegrationOverrideResult s b = .ok () ↔ s = 204 ∨ s = 200) ∧
      (setIntegrationOverrideResult s b = .ok () → 200 ≤ s ∧ s < 300) ∧
      (¬ (s = 204 ∨ s = 200) → setIntegrationOverrideResult s b = .error ⟨s, some b⟩)) ∧
    (∀ s b, (addIntegrationRouteResult s b = .ok () ↔ s = 200 ∨ s = 201 ∨ s = 204) ∧
      (addIntegrationRouteResult s b = .ok () → 200 ≤ s ∧ s < 300) ∧
      (¬ (s = 200 ∨ s = 201 ∨ s = 204) →
        addIntegrationRouteResult s b = .error ⟨s, some b⟩)) ∧
    (∀ s b, (removeIntegrationRouteResult s b = .ok () ↔ s = 204 ∨ s = 200) ∧
      (removeIntegrationRouteResult s b = .ok () → 200 ≤ s ∧ s < 300) ∧
      (¬ (s = 204 ∨ s = 200) → removeIntegrationRouteResult s b = .error ⟨s, some b⟩)) := by
  refine ⟨fun s b => ifStatusSpec s _ (fun h => by omega),
          fun s => ifStatusSpec s _ (fun h => by omega),
          fun s => ifStatusSpec s _ (fun h => by omega),
          fun s => ifStatusSpec s _ (fun h => by rcases h with h | h <;> omega),
          fun s => ifStatusSpec s _ (fun h => by omega),
          fun s b => ifStatusSpec s _ (fun h => by rcases h with h | h <;> omega),
          fun s b => ifStatusSpec s _ (fun h => by omega),
          fun s b => ifStatusSpec s _ (fun h => by rcases h with h | h <;> omega),
          fun s => ifStatusSpec s _ (fun h => by rcases h with h | h <;> omega),
          fun s => ifStatusSpec s _ (fun h => by rcases h with h | h <;> omega),
          fun s => ifStatusSpec s _ (fun h => by rcases h with h | h <;> omega),
          fun s => ifStatusSpec s _ (fun h => by rcases h with h | h <;> omega),
          fun s b => ifStatusSpec s _ (fun h => by rcases h with h | h <;> omega),
          fun s b => ifStatusSpec s _ (fun h => by rcases h with h | h | h <;> omega),
          fun s b => ifStatusSpec s _ (fun h => by rcases h with h | h <;> omega),
          fun s b => ifStatusSpec s _ (fun h => by rcases h with h | h <;> omega),
          fun s b => ifStatusSpec s _ (fun h => by rcases h with h | h <;> omega),
          fun s b => ifStatusSpec s _ (fun h => by rcases h with h | h <;> omega),
          fun s b => ifStatusSpec s _ (fun h => by rcases h with h | h | h <;> omega),
          fun s b => ifStatusSpec s _ (fun h => by rcases h with h | h <;> omega)⟩

/-- C6 witness: CreateTopic at status 404 with a concrete body yields the
error value carrying status and body. -/
theorem writeStatusClassificationWitness :
    createTopicResult 404 "no such cluster" = .error ⟨404, some "no such cluster"⟩ :=
  (writeStatusClassification.1 404 "no such cluster").2.2 (by decide)

/-! ### Claim C2: delete idempotence -/

/-- C2 counterexample: the claim says delete on an already-absent resource
succeeds for every kind, but DeleteTopic surfaces a remote 404 as an error. -/
theorem deleteTopic404IsError :
    deleteTopicResult 404 = .error ⟨404, none⟩ ∧ deleteTopicResult 404 ≠ .ok () := by
  exact ⟨rfl, by simp [deleteTopicResult]⟩

/-- C2 (amended): deleting an already-absent element succeeds without error
for the collection-backed kinds — the three healthcheck subtypes filter the
fetched collection by name and log collectors filter by UUID, so an absent
identity leaves the collection unchanged and the operation succeeds whenever
the wholesale write-back does; an alert route whose integration no longer
exists is treated as already deleted (no remote call, no error), but when
the integration still exists the RemoveIntegrationRoute call's failure —
including a 404 — is surfaced as an error; for the kinds with a direct
remote delete endpoint (topic, ACL, schema, connector, alert rule, backup)
a remote 404 on delete is surfaced as an error. -/
theorem deleteIdempotenceByKind :
    (∀ (resp : HealthchecksResponse) (data : ShellHealthcheckData)
       (put : HealthchecksResponse → Except WriteErr Unit),
       (∀ c ∈ resp.shellChecks, c.name ≠ data.name) →
       put resp = .ok () →
       shellHealthcheckDelete (.ok resp) data put = .ok () ∧
       shellDeleteMerge resp.shellChecks data.name = resp.shellChecks) ∧
    (∀ (resp : HealthchecksResponse) (data : TCPHealthcheckData)
       (put : HealthchecksResponse → Except WriteErr Unit),
       (∀ c ∈ resp.tcpChecks, c.name ≠ data.name) →
       put resp = .ok () →
       tcpHealthcheckDelete (.ok resp) data put = .ok () ∧
       tcpDeleteMerge resp.tcpChecks data.name = resp.tcpChecks) ∧
    (∀ (resp : HealthchecksResponse) (data : HTTPHealthcheckData)
       (put : HealthchecksResponse → Except WriteErr Unit),
       (∀ c ∈ resp.httpChecks, c.name ≠ data.name) →
       put resp = .ok () →
       httpHealthcheckDelete (.ok resp) data put = .ok () ∧
       httpDeleteMerge resp.httpChecks data.name = resp.httpChecks) ∧
    (∀ (cs : List LogCollectorConfig) (data : LogCollectorData)
       (put : List LogCollectorConfig → Except WriteErr Unit),
       (∀ c ∈ cs, c.uuid ≠ data.uuid) →
       put cs = .ok () →
       logCollectorDelete (.ok cs) data put = .ok () ∧
       logCollectorDeleteMerge cs data.uuid = cs) ∧
    (∀ (i : IntegrationsResponse) (d : AlertRouteData) (t : String)
       (rm : String → Except WriteErr Unit),
       getAPIRouteType d.routeType = some t →
       findIntegrationID i.definitions d.integrationName d.integrationType = none →
       alertRouteDelete (.ok i) d rm = { removeCalls := 0, errored := false }) ∧
    (∀ (i : IntegrationsResponse) (d : AlertRouteData) (t iid : String)
       (rm : String → Except WriteErr Unit) (e : WriteErr),
       getAPIRouteType d.routeType = some t →
       findIntegrationID i.definitions d.integrationName d.integrationType = some iid →
       rm iid = .error e →
       alertRouteDelete (.ok i) d rm = { removeCalls := 1, errored := true }) ∧
    (∀ b, removeIntegrationRouteResult 404 b = .error ⟨404, some b⟩) ∧
    deleteTopicResult 404 = .error ⟨404, none⟩ ∧
    deleteACLResult 404 = .error ⟨404, none⟩ ∧
    deleteSchemaResult 404 = .error ⟨404, none⟩ ∧
    (∀ b, deleteConnectorResult 404 b = .error ⟨404, some b⟩) ∧
    (∀ b, deleteAlertRuleResult 404 b = .error ⟨404, some b⟩) ∧
    (∀ b, deleteCassandraBackupResult 404 b = .error ⟨404, some b⟩) := by
  refine ⟨?_, ?_, ?_, ?_, ?_, ?_, fun _ => rfl, rfl, rfl, rfl,
          fun _ => rfl, fun _ => rfl, fun _ => rfl⟩
  · intro resp data put habs hput
    have hfilter : shellDeleteMerge resp.shellChecks data.name = resp.shellChecks := by
      apply List.filter_eq_self.mpr
      intro c hc
      simp only [bne_iff_ne, ne_eq]
      exact habs c hc
    refine ⟨?_, hfilter⟩
    simp only [shellHealthcheckDelete, hfilter]
    exact hput
  · intro resp data put habs hput
    have hfilter : tcpDeleteMerge resp.tcpChecks data.name = resp.tcpChecks := by
      apply List.filter_eq_self.mpr
      intro c hc
      simp only [bne_iff_ne, ne_eq]
      exact habs c hc
    refine ⟨?_, hfilter⟩
    simp only [tcpHealthcheckDelete, hfilter]
    exact hput
  · intro resp data put habs hput
    have hfilter : httpDeleteMerge resp.httpChecks data.name = resp.httpChecks := by
      apply List.filter_eq_self.mpr
      intro c hc
      simp only [bne_iff_ne, ne_eq]
      exact habs c hc
    refine ⟨?_, hfilter⟩
    simp only [httpHealthcheckDelete, hfilter]
    exact hput
  · intro cs data put habs hput
    have hfilter : logCollectorDeleteMerge cs data.uuid = cs := by
      apply List.filter_eq_self.mpr
      intro c hc
      simp only [bne_iff_ne, ne_eq]
      exact habs c hc
    refine ⟨?_, hfilter⟩
    simp only [logCollectorDelete, hfilter]
    exact hput
  · intro i d t rm ht hfind
    simp [alertRouteDelete, ht, hfind]
  · intro i d t iid rm e ht hfind hrm
    simp [alertRouteDelete, ht, hfind, hrm]

/-- C2 witness: deleting a shell healthcheck absent by name and a log
collector absent by UUID both succeed; an alert route whose integration is
gone succeeds with no remote call; and an alert route whose integration
still exists surfaces a 404 from RemoveIntegrationRoute as an error after
one call. -/
theorem deleteIdempotenceWitness :
    shellHealthcheckDelete
      (.ok ⟨[⟨"id-1", "mem", "1m", "1m", ⟨"", [], false, false, false⟩, false, "", "x"⟩], [], []⟩)
      ⟨"prod", "disk", "", "y", "", "1m", "1m", false⟩
      (fun _ => .ok ()) = .ok () ∧
    logCollectorDelete
      (.ok [⟨"syslog", "uuid-1", "/var/log/syslog", "", "", "", "", "", ["all"], 0⟩])
      ⟨"prod", "kafkalog", "uuid-2", "", "", "", "", "", "", [], 0⟩
      (fun _ => .ok ()) = .ok () ∧
    alertRouteDelete (.ok ⟨[], []⟩)
      ⟨"prod", "kafka", "oncall", "slack", "metrics", "error", true⟩
      (fun _ => .ok ()) = { removeCalls := 0, errored := false } ∧
    alertRouteDelete (.ok ⟨[⟨"iid-1", "slack", [("name", "oncall")]⟩], []⟩)
      ⟨"prod", "kafka", "oncall", "slack", "metrics", "error", true⟩
      (fun _ => removeIntegrationRouteResult 404 "route not found") =
        { removeCalls := 1, errored := true } := by
  refine ⟨(deleteIdempotenceByKind.1
            ⟨[⟨"id-1", "mem", "1m", "1m", ⟨"", [], false, false, false⟩, false, "", "x"⟩], [], []⟩
            ⟨"prod", "disk", "", "y", "", "1m", "1m", false⟩
            (fun _ => .ok ()) (by decide) rfl).1,
          (deleteIdempotenceByKind.2.2.2.1
            [⟨"syslog", "uuid-1", "/var/log/syslog", "", "", "", "", "", ["all"], 0⟩]
            ⟨"prod", "kafkalog", "uuid-2", "", "", "", "", "", "", [], 0⟩
            (fun _ => .ok ()) (by decide) rfl).1,
          deleteIdempotenceByKind.2.2.2.2.1 ⟨[], []⟩
            ⟨"prod", "kafka", "oncall", "slack", "metrics", "error", true⟩ "Metrics"
            (fun _ => .ok ()) (by decide) (by decide),
          deleteIdempotenceByKind.2.2.2.2.2.1
            ⟨[⟨"iid-1", "slack", [("name", "oncall")]⟩], []⟩
            ⟨"prod", "kafka", "oncall", "slack", "metrics", "error", true⟩ "Metrics" "iid-1"
            (fun _ => removeIntegrationRouteResult 404 "route not found")
            ⟨404, some "route not found"⟩ (by decide) (by decide) rfl⟩

/-! ### Claim C4: topic immutable-field rejection -/

/-- C4: a topic update whose plan changes the partition count or the
replication factor is rejected with an error before any gateway call, and
the stored record is not rewritten. -/
theorem topicUpdateRejectsImmutableChange :
    ∀ (plan state : TopicData) (r : Except WriteErr Unit),
      plan.partitions ≠ state.partitions ∨
        plan.replicationFactor ≠ state.replicationFactor →
      topicUpdate plan state r = { calls := [], errored := true, stateSet := none } := by
  intro plan state r h
  unfold topicUpdate
  rcases h with h | h
  · simp [h]
  · by_cases hp : plan.partitions = state.partitions
    · simp [hp, h]
    · simp [hp]

/-- C4 witness: a concrete plan changing partitions from 3 to 6 is rejected
with no gateway call and no state write. -/
theorem topicUpdateRejectsWitness :
    topicUpdate ⟨"orders", 6, 3, "prod", []⟩ ⟨"orders", 3, 3, "prod", []⟩ (.ok ()) =
      { calls := [], errored := true, stateSet := none } :=
  topicUpdateRejectsImmutableChange ⟨"orders", 6, 3, "prod", []⟩ ⟨"orders", 3, 3, "prod", []⟩
    (.ok ()) (Or.inl (by decide))

/-! ### Claim C1: read-time removal on remote absence -/

/-- C1: for every resource kind whose read performs a remote fetch, a
successful fetch in which identity resolution finds no matching remote
object (absent from the fetched collection, a nil read result, or a
missing integration or route) removes the local record from state and
reports no error; the topic and ACL reads perform no remote fetch, so the
situation cannot arise for them. -/
theorem readRemovesRecordOnRemoteAbsence :
    (∀ (resp : HealthchecksResponse) (d : ShellHealthcheckData),
       findShellByName resp.shellChecks d.name = none →
       shellHealthcheckRead (.ok resp) d = .removed) ∧
    (∀ (resp : HealthchecksResponse) (d : TCPHealthcheckData),
       findTCPByName resp.tcpChecks d.name = none →
       tcpHealthcheckRead (.ok resp) d = .removed) ∧
    (∀ (resp : HealthchecksResponse) (d : HTTPHealthcheckData),
       findHTTPByName resp.httpChecks d.name = none →
       httpHealthcheckRead (.ok resp) d = .removed) ∧
    (∀ (cs : List LogCollectorConfig) (d : LogCollectorData),
       findCollectorByName cs d.name = none →
       logCollectorRead (.ok cs) d = .removed) ∧
    (∀ (d : SchemaData), schemaRead (.ok none) d = .removed) ∧
    (∀ (d : ConnectorData), connectorRead (.ok none) d = .removed) ∧
    (∀ (rules : List MetricAlertRule) (d : MetricAlertRuleData),
       findRuleByID rules d.id = none →
       metricAlertRuleRead (.ok rules) d = .removed) ∧
    (∀ (bs : List CassandraBackup) (d : CassandraBackupData),
       findBackupByTag bs d.tag = none →
       cassandraBackupRead (.ok bs) d = .removed) ∧
    (∀ (i : IntegrationsResponse) (d : AlertRouteData) (t : String),
       getAPIRouteType d.routeType = some t →
       findIntegrationID i.definitions d.integrationName d.integrationType = none →
       alertRouteRead (.ok i) d = .removed) ∧
    (∀ (i : IntegrationsResponse) (d : AlertRouteData) (t iid : String),
       getAPIRouteType d.routeType = some t →
       findIntegrationID i.definitions d.integrationName d.integrationType = some iid →
       i.routings.find? (fun r => r.type == t.replace "%20" " ") = none →
       alertRouteRead (.ok i) d = .removed) ∧
    (∀ (i : IntegrationsResponse) (d : AlertRouteData) (t iid : String)
       (routing : IntegrationRouting),
       getAPIRouteType d.routeType = some t →
       findIntegrationID i.definitions d.integrationName d.integrationType = some iid →
       i.routings.find? (fun r => r.type == t.replace "%20" " ") = some routing →
       routing.routing.any (fun rt => rt.id == iid && eqFold rt.severity d.severity) = false →
       alertRouteRead (.ok i) d = .removed) := by
  refine ⟨?_, ?_, ?_, ?_, fun _ => rfl, fun _ => rfl, ?_, ?_, ?_, ?_, ?_⟩
  · intro resp d h; simp [shellHealthcheckRead, h]
  · intro resp d h; simp [tcpHealthcheckRead, h]
  · intro resp d h; simp [httpHealthcheckRead, h]
  · intro cs d h; simp [logCollectorRead, h]
  · intro rules d h; simp [metricAlertRuleRead, h]
  · intro bs d h; simp [cassandraBackupRead, h]
  · intro i d t ht h; simp [alertRouteRead, ht, h]
  · intro i d t iid ht hint h; simp [alertRouteRead, ht, hint, h]
  · intro i d t iid routing ht hint hr hany; simp [alertRouteRead, ht, hint, hr, hany]

/-- C1 witness: a shell healthcheck read against a concrete collection that
lacks the record's name, an empty log-collector collection, a nil schema
result and a missing integration all remove the record. -/
theorem readRemovesRecordWitness :
    shellHealthcheckRead
      (.ok ⟨[⟨"id-1", "mem", "1m", "1m", ⟨"", [], false, false, false⟩, false, "", "x"⟩], [], []⟩)
      ⟨"prod", "disk", "", "y", "", "1m", "1m", false⟩ = .removed ∧
    logCollectorRead (.ok [])
      ⟨"prod", "syslog", "", "", "", "", "", "", "", [], 0⟩ = .removed ∧
    schemaRead (.ok none) ⟨"prod", "orders-value", "", "AVRO", 0, 0⟩ = .removed ∧
    alertRouteRead (.ok ⟨[], []⟩)
      ⟨"prod", "kafka", "oncall", "slack", "metrics", "error", true⟩ = .removed := by
  refine ⟨readRemovesRecordOnRemoteAbsence.1 _ _ rfl,
          readRemovesRecordOnRemoteAbsence.2.2.2.1 _ _ rfl,
          readRemovesRecordOnRemoteAbsence.2.2.2.2.1 _,
          readRemovesRecordOnRemoteAbsence.2.2.2.2.2.2.2.2.1 _ _ "Metrics" rfl rfl⟩

/-! ### Claim C3: ACL update as delete-then-create -/

/-- C3: updating an ACL issues exactly two gateway calls in order — delete
of the 7-tuple from stored state, then create of the 7-tuple from the
plan; a delete failure stops before any create call, and a create failure
after a successful delete is surfaced as an error with no state write (the
stored record is not silently rewritten). -/
theorem aclUpdateIsDeleteThenCreate :
    ∀ (plan state : ACLData) (dr cr : Except WriteErr Unit),
      (dr = .ok () → cr = .ok () →
        aclUpdate plan state dr cr =
          { calls := [.deleteACL state.clusterName (aclFromData state),
                      .createACL plan.clusterName (aclFromData plan)],
            errored := false, stateSet := some plan }) ∧
      (∀ e, dr = .error e →
        aclUpdate plan state dr cr =
          { calls := [.deleteACL state.clusterName (aclFromData state)],
            errored := true, stateSet := none }) ∧
      (∀ e, dr = .ok () → cr = .error e →
        aclUpdate plan state dr cr =
          { calls := [.deleteACL state.clusterName (aclFromData state),
                      .createACL plan.clusterName (aclFromData plan)],
            errored := true, stateSet := none }) := by
  intro plan state dr cr
  refine ⟨?_, ?_, ?_⟩
  · intro hd hc; subst hd; subst hc; rfl
  · intro e hd; subst hd; rfl
  · intro e hd hc; subst hd; subst hc; rfl

/-- C3 witness: the spec scenario — the old tuple reads topic orders with
operation READ, the plan switches the operation to WRITE; with both calls
succeeding the outcome is the two ordered calls and the stored plan, and
with the create failing the outcome is both calls plus a surfaced error
and no state write. -/
theorem aclUpdateWitness :
    aclUpdate ⟨"prod", "TOPIC", "orders", "LITERAL", "User:a", "*", "WRITE", "ALLOW"⟩
        ⟨"prod", "TOPIC", "orders", "LITERAL", "User:a", "*", "READ", "ALLOW"⟩
        (.ok ()) (.ok ()) =
      { calls := [.deleteACL "prod"
                    (aclFromData ⟨"prod", "TOPIC", "orders", "LITERAL", "User:a", "*", "READ", "ALLOW"⟩),
                  .createACL "prod"
                    (aclFromData ⟨"prod", "TOPIC", "orders", "LITERAL", "User:a", "*", "WRITE", "ALLOW"⟩)],
        errored := false,
        stateSet := some ⟨"prod", "TOPIC", "orders", "LITERAL", "User:a", "*", "WRITE", "ALLOW"⟩ } ∧
    aclUpdate ⟨"prod", "TOPIC", "orders", "LITERAL", "User:a", "*", "WRITE", "ALLOW"⟩
        ⟨"prod", "TOPIC", "orders", "LITERAL", "User:a", "*", "READ", "ALLOW"⟩
        (.ok ()) (.error ⟨500, none⟩) =
      { calls := [.deleteACL "prod"
                    (aclFromData ⟨"prod", "TOPIC", "orders", "LITERAL", "User:a", "*", "READ", "ALLOW"⟩),
                  .createACL "prod"
                    (aclFromData ⟨"prod", "TOPIC", "orders", "LITERAL", "User:a", "*", "WRITE", "ALLOW"⟩)],
        errored := true, stateSet := none } := by
  refine ⟨(aclUpdateIsDeleteThenCreate _ _ _ _).1 rfl rfl,
          (aclUpdateIsDeleteThenCreate _ _ _ _).2.2 ⟨500, none⟩ rfl rfl⟩

/-! ### Claim C7: import identifier segment counts -/

/-- C7: every import with a slash-separated segment count different from
the kind's fixed expectation (2 for topics, 8 for ACLs, 2 for
healthchecks, log collectors, schemas and adaptive repair, 3 for
connectors, alert rules and backups, 6 for alert routes) is rejected
immediately: no field is populated and no gateway call is made. -/
theorem importRejectsWrongSegmentCount :
    (∀ raw gw, (importSegments raw).length ≠ 2 → topicImport raw gw = (0, .invalidId)) ∧
    (∀ raw, (importSegments raw).length ≠ 8 → aclImport raw = (0, .invalidId)) ∧
    (∀ raw gw, (importSegments raw).length ≠ 2 →
      shellHealthcheckImport raw gw = (0, .invalidId)) ∧
    (∀ raw gw, (importSegments raw).length ≠ 2 →
      httpHealthcheckImport raw gw = (0, .invalidId)) ∧
    (∀ raw gw, (importSegments raw).length ≠ 2 →
      logCollectorImport raw gw = (0, .invalidId)) ∧
    (∀ raw gw, (importSegments raw).length ≠ 2 → schemaImport raw gw = (0, .invalidId)) ∧
    (∀ raw gw, (importSegments raw).length ≠ 3 → connectorImport raw gw = (0, .invalidId)) ∧
    (∀ raw gw, (importSegments raw).length ≠ 3 →
      metricAlertRuleImport raw gw = (0, .invalidId)) ∧
    (∀ raw gw, (importSegments raw).length ≠ 3 →
      cassandraBackupImport raw gw = (0, .invalidId)) ∧
    (∀ raw gw, (importSegments raw).length ≠ 6 → alertRouteImport raw gw = (0, .invalidId)) ∧
    (∀ raw gw, (importSegments raw).length ≠ 2 →
      adaptiveRepairImport raw gw = (0, .invalidId)) := by
  refine ⟨?_, ?_, ?_, ?_, ?_, ?_, ?_, ?_, ?_, ?_, ?_⟩
  · intro raw gw h; unfold topicImport; simp [h]
  · intro raw h; unfold aclImport; simp [h]
  · intro raw gw h; unfold shellHealthcheckImport; simp [h]
  · intro raw gw h; unfold httpHealthcheckImport; simp [h]
  · intro raw gw h; unfold logCollectorImport; simp [h]
  · intro raw gw h; unfold schemaImport; simp [h]
  · intro raw gw h; unfold connectorImport; simp [h]
  · intro raw gw h; unfold metricAlertRuleImport; simp [h]
  · intro raw gw h; unfold cassandraBackupImport; simp [h]
  · intro raw gw h; unfold alertRouteImport; simp [h]
  · intro raw gw h; unfold adaptiveRepairImport; simp [h]

/-- C7 witness: the identifier prod/orders splits into two segments, so a
kind expecting three (connector) and a kind expecting eight (ACL) both
reject it with no gateway call. -/
theorem importRejectsWitness :
    connectorImport "prod/orders" (fun _ _ _ => .error ⟨0, none⟩) = (0, .invalidId) ∧
    aclImport "prod/orders" = (0, .invalidId) := by
  refine ⟨importRejectsWrongSegmentCount.2.2.2.2.2.2.1 "prod/orders" _ (by decide),
          importRejectsWrongSegmentCount.2.1 "prod/orders" (by decide)⟩

/-! ### List lemmas about replaceFirst -/

/-- Every element of a replaceFirst result is either an element of the
input or the rewrite of one. -/
theorem replaceFirst_mem_or {α : Type} (p : α → Bool) (f : α → α) (l : List α) :
    ∀ x ∈ (replaceFirst p f l).1, x ∈ l ∨ ∃ y, y ∈ l ∧ x = f y := by
  induction l with
  | nil => intro x hx; simp [replaceFirst] at hx
  | cons c rest ih =>
    intro x hx
    by_cases hc : p c = true
    · simp only [replaceFirst, hc, if_true] at hx
      rcases List.mem_cons.mp hx with h | h
      · exact Or.inr ⟨c, List.mem_cons_self c rest, h⟩
      · exact Or.inl (List.mem_cons_of_mem c h)
    · simp only [replaceFirst, hc, if_false] at hx
      rcases List.mem_cons.mp hx with h | h
      · exact Or.inl (h ▸ List.mem_cons_self c rest)
      · rcases ih x h with h2 | ⟨y, hy, hxy⟩
        · exact Or.inl (List.mem_cons_of_mem c h2)
        · exact Or.inr ⟨y, List.mem_cons_of_mem c hy, hxy⟩

/-- When the match predicate coincides with carrying the matched name and
the rewrite always assigns the new name, replaceFirst preserves
no-duplicate names as long as the new name is the matched name or is
absent from the collection. -/
theorem replaceFirst_map_nodup {α : Type} (p : α → Bool) (f : α → α) (nm : α → String)
    (stateName newName : String)
    (hf : ∀ y, nm (f y) = newName)
    (hp : ∀ x, p x = true ↔ nm x = stateName) :
    ∀ (l : List α), (l.map nm).Nodup →
      newName = stateName ∨ newName ∉ l.map nm →
      ((replaceFirst p f l).1.map nm).Nodup := by
  intro l
  induction l with
  | nil => intro _ _; simp [replaceFirst]
  | cons c rest ih =>
    intro hnd hfresh
    simp only [List.map_cons, List.nodup_cons] at hnd
    obtain ⟨hcnot, hrest⟩ := hnd
    by_cases hc : p c = true
    · simp only [replaceFirst, hc, if_true, List.map_cons]
      refine List.nodup_cons.mpr ⟨?_, hrest⟩
      rw [hf]
      rcases hfresh with h | h
      · rw [h, ← (hp c).mp hc]
        exact hcnot
      · exact fun hmem => h (List.mem_cons_of_mem _ hmem)
    · simp only [replaceFirst, hc, if_false, List.map_cons]
      have hfresh2 : newName = stateName ∨ newName ∉ rest.map nm := by
        rcases hfresh with h | h
        · exact Or.inl h
        · exact Or.inr fun hm => h (List.mem_cons_of_mem _ hm)
      refine List.nodup_cons.mpr ⟨?_, ih hrest hfresh2⟩
      intro hmem
      obtain ⟨x, hx, hnmx⟩ := List.mem_map.mp hmem
      rcases replaceFirst_mem_or p f rest x hx with h2 | ⟨y, hy, hxy⟩
      · exact hcnot (hnmx ▸ List.mem_map_of_mem nm h2)
      · have hcn : nm c = newName := by rw [← hnmx, hxy, hf]
        rcases hfresh with h | h
        · exact hc ((hp c).mpr (hcn.trans h))
        · exact h (by rw [← hcn]; exact List.mem_cons_self _ _)

/-- When index k holds the first match, replaceFirst rewrites exactly the
element at k and reports success. -/
theorem replaceFirst_first_match {α : Type} (p : α → Bool) (f : α → α) :
    ∀ (l : List α) (k : Nat) (hk : k < l.length),
      p (l.get ⟨k, hk⟩) = true →
      (∀ j (hj : j < k), p (l.get ⟨j, Nat.lt_trans hj hk⟩) = false) →
      replaceFirst p f l = (l.set k (f (l.get ⟨k, hk⟩)), true) := by
  intro l
  induction l with
  | nil => intro k hk; exact absurd hk (by simp)
  | cons c rest ih =>
    intro k hk hmatch hfirst
    cases k with
    | zero =>
      have hc : p c = true := hmatch
      simp [replaceFirst, hc]
    | succ k =>
      have hc : p c = false := hfirst 0 (Nat.succ_pos k)
      have hk2 : k < rest.length := Nat.lt_of_succ_lt_succ hk
      have hmatch2 : p (rest.get ⟨k, hk2⟩) = true := hmatch
      have hfirst2 : ∀ j (hj : j < k), p (rest.get ⟨j, Nat.lt_trans hj hk2⟩) = false :=
        fun j hj => hfirst (j + 1) (Nat.succ_lt_succ hj)
      simp only [replaceFirst, hc, if_false]
      rw [ih k hk2 hmatch2 hfirst2]
      rfl

/-! ### Claim C8: uniqueness of client-side identity under merges -/

/-- C8 counterexample: creating a shell healthcheck whose plan name already
occurs in the fetched collection yields a collection with two elements of
the same name — the create path performs no duplicate check. -/
theorem createDuplicatesExistingName :
    ¬ ((shellCreateMerge
          [⟨"id-1", "disk", "1m", "1m", ⟨"", [], false, false, false⟩, false, "", "x"⟩]
          ⟨"prod", "disk", "", "y", "", "1m", "1m", false⟩ "id-2").map
        (fun c => c.name)).Nodup := by decide

/-- C8 (amended): for every array-backed kind — shell, TCP and HTTP
healthchecks and log collectors — the merge operations preserve uniqueness
of the client-side name only under the freshness assumptions the code
leaves unchecked: insertion preserves uniqueness provided the created
element's name is not already in the fetched collection (no duplicate
check is performed, so creating an already-present name duplicates it),
replacement preserves uniqueness provided the plan keeps the matched name
or picks a name absent from the collection, and deletion (by name for
healthchecks, by UUID for log collectors) always preserves uniqueness. -/
theorem mergePreservesUniqueNames :
    (∀ (existing : List ShellHealthcheck) (d : ShellHealthcheckData) (newID : String),
       (existing.map (fun c => c.name)).Nodup →
       d.name ∉ existing.map (fun c => c.name) →
       ((shellCreateMerge existing d newID).map (fun c => c.name)).Nodup) ∧
    (∀ (existing : List TCPHealthcheck) (d : TCPHealthcheckData) (newID : String),
       (existing.map (fun c => c.name)).Nodup →
       d.name ∉ existing.map (fun c => c.name) →
       ((tcpCreateMerge existing d newID).map (fun c => c.name)).Nodup) ∧
    (∀ (existing : List HTTPHealthcheck) (d : HTTPHealthcheckData) (newID : String),
       (existing.map (fun c => c.name)).Nodup →
       d.name ∉ existing.map (fun c => c.name) →
       ((httpCreateMerge existing d newID).map (fun c => c.name)).Nodup) ∧
    (∀ (existing : List LogCollectorConfig) (d : LogCollectorData) (newUUID : String),
       (existing.map (fun c => c.name)).Nodup →
       d.name ∉ existing.map (fun c => c.name) →
       ((logCollectorCreateMerge existing d newUUID).map (fun c => c.name)).Nodup) ∧
    (∀ (checks : List ShellHealthcheck) (name : String),
       (checks.map (fun c => c.name)).Nodup →
       ((shellDeleteMerge checks name).map (fun c => c.name)).Nodup) ∧
    (∀ (checks : List TCPHealthcheck) (name : String),
       (checks.map (fun c => c.name)).Nodup →
       ((tcpDeleteMerge checks name).map (fun c => c.name)).Nodup) ∧
    (∀ (checks : List HTTPHealthcheck) (name : String),
       (checks.map (fun c => c.name)).Nodup →
       ((httpDeleteMerge checks name).map (fun c => c.name)).Nodup) ∧
    (∀ (collectors : List LogCollectorConfig) (uuid : String),
       (collectors.map (fun c => c.name)).Nodup →
       ((logCollectorDeleteMerge collectors uuid).map (fun c => c.name)).Nodup) ∧
    (∀ (checks : List ShellHealthcheck) (stateName : String) (plan : ShellHealthcheckData),
       (checks.map (fun c => c.name)).Nodup →
       plan.name = stateName ∨ plan.name ∉ checks.map (fun c => c.name) →
       ((shellUpdateMerge checks stateName plan).1.map (fun c => c.name)).Nodup) ∧
    (∀ (checks : List TCPHealthcheck) (stateName : String) (plan : TCPHealthcheckData),
       (checks.map (fun c => c.name)).Nodup →
       plan.name = stateName ∨ plan.name ∉ checks.map (fun c => c.name) →
       ((tcpUpdateMerge checks stateName plan).1.map (fun c => c.name)).Nodup) ∧
    (∀ (checks : List HTTPHealthcheck) (stateName : String) (plan : HTTPHealthcheckData),
       (checks.map (fun c => c.name)).Nodup →
       plan.name = stateName ∨ plan.name ∉ checks.map (fun c => c.name) →
       ((httpUpdateMerge checks stateName plan).1.map (fun c => c.name)).Nodup) ∧
    (∀ (collectors : List LogCollectorConfig) (stateName : String) (plan : LogCollectorData),
       (collectors.map (fun c => c.name)).Nodup →
       plan.name = stateName ∨ plan.name ∉ collectors.map (fun c => c.name) →
       ((logCollectorUpdateMerge collectors stateName plan).1.map (fun c => c.name)).Nodup) := by
  refine ⟨?_, ?_, ?_, ?_, ?_, ?_, ?_, ?_, ?_, ?_, ?_, ?_⟩
  · intro existing d newID hnd hmem
    unfold shellCreateMerge
    rw [List.map_append, List.nodup_append]
    refine ⟨hnd, List.nodup_singleton _, ?_⟩
    intro a ha hb
    simp [newShellCheck] at hb
    subst hb
    exact hmem ha
  · intro existing d newID hnd hmem
    unfold tcpCreateMerge
    rw [List.map_append, List.nodup_append]
    refine ⟨hnd, List.nodup_singleton _, ?_⟩
    intro a ha hb
    simp [newTCPCheck] at hb
    subst hb
    exact hmem ha
  · intro existing d newID hnd hmem
    unfold httpCreateMerge
    rw [List.map_append, List.nodup_append]
    refine ⟨hnd, List.nodup_singleton _, ?_⟩
    intro a ha hb
    simp [newHTTPCheck] at hb
    subst hb
    exact hmem ha
  · intro existing d newUUID hnd hmem
    unfold logCollectorCreateMerge
    rw [List.map_append, List.nodup_append]
    refine ⟨hnd, List.nodup_singleton _, ?_⟩
    intro a ha hb
    simp [newLogCollector] at hb
    subst hb
    exact hmem ha
  · intro checks name hnd
    exact List.Nodup.sublist (List.Sublist.map _ (List.filter_sublist _)) hnd
  · intro checks name hnd
    exact List.Nodup.sublist (List.Sublist.map _ (List.filter_sublist _)) hnd
  · intro checks name hnd
    exact List.Nodup.sublist (List.Sublist.map _ (List.filter_sublist _)) hnd
  · intro collectors uuid hnd
    exact List.Nodup.sublist (List.Sublist.map _ (List.filter_sublist _)) hnd
  · intro checks stateName plan hnd hfresh
    unfold shellUpdateMerge
    exact replaceFirst_map_nodup (fun c => c.name == stateName)
      (fun c => { id := c.id, name := plan.name, script := plan.script, shell := plan.shell,
                  interval := plan.interval, timeout := plan.timeout,
                  readonly := plan.readonly, integrations := c.integrations })
      (fun c => c.name) stateName plan.name (fun y => rfl) (fun x => by simp)
      checks hnd hfresh
  · intro checks stateName plan hnd hfresh
    unfold tcpUpdateMerge
    exact replaceFirst_map_nodup (fun c => c.name == stateName)
      (fun c => { id := c.id, name := plan.name, tcp := plan.tcp,
                  interval := plan.interval, timeout := plan.timeout,
                  readonly := plan.readonly,
                  supportedAgentType := plan.supportedAgentTypes,
                  integrations := c.integrations })
      (fun c => c.name) stateName plan.name (fun y => rfl) (fun x => by simp)
      checks hnd hfresh
  · intro checks stateName plan hnd hfresh
    unfold httpUpdateMerge
    exact replaceFirst_map_nodup (fun c => c.name == stateName)
      (fun c => { id := c.id, name := plan.name, url := plan.url, method := plan.method,
                  headers := plan.headers, body := plan.body,
                  expectedStatus := plan.expectedStatus, interval := plan.interval,
                  timeout := plan.timeout, readonly := plan.readonly,
                  supportedAgentType := plan.supportedAgentTypes,
                  integrations := c.integrations })
      (fun c => c.name) stateName plan.name (fun y => rfl) (fun x => by simp)
      checks hnd hfresh
  · intro collectors stateName plan hnd hfresh
    unfold logCollectorUpdateMerge
    exact replaceFirst_map_nodup (fun c => c.name == stateName)
      (fun c => { name := plan.name, uuid := c.uuid, filename := plan.filename,
                  dateFormat := plan.dateFormat, infoRegex := plan.infoRegex,
                  warningRegex := plan.warningRegex, errorRegex := plan.errorRegex,
                  debugRegex := plan.debugRegex,
                  supportedAgentType := plan.supportedAgentTypes,
                  errorAlertThreshold := plan.errorAlertThreshold })
      (fun c => c.name) stateName plan.name (fun y => rfl) (fun x => by simp)
      collectors hnd hfresh

/-- C8 witness: inserting the fresh name disk into a concrete shell
collection holding only mem, and the fresh name kafkalog into a concrete
log-collector collection holding only syslog, keeps the names
duplicate-free in both. -/
theorem mergePreservesUniqueNamesWitness :
    ((shellCreateMerge
        [⟨"id-1", "mem", "1m", "1m", ⟨"", [], false, false, false⟩, false, "", "x"⟩]
        ⟨"prod", "disk", "", "y", "", "1m", "1m", false⟩ "id-2").map
      (fun c => c.name)).Nodup ∧
    ((logCollectorCreateMerge
        [⟨"syslog", "uuid-1", "/var/log/syslog", "", "", "", "", "", ["all"], 0⟩]
        ⟨"prod", "kafkalog", "", "/var/log/kafka.log", "", "", "", "", "", ["all"], 0⟩
        "uuid-2").map (fun c => c.name)).Nodup :=
  ⟨mergePreservesUniqueNames.1
    [⟨"id-1", "mem", "1m", "1m", ⟨"", [], false, false, false⟩, false, "", "x"⟩]
    ⟨"prod", "disk", "", "y", "", "1m", "1m", false⟩ "id-2" (by decide) (by decide),
   mergePreservesUniqueNames.2.2.2.1
    [⟨"syslog", "uuid-1", "/var/log/syslog", "", "", "", "", "", ["all"], 0⟩]
    ⟨"prod", "kafkalog", "", "/var/log/kafka.log", "", "", "", "", "", ["all"], 0⟩
    "uuid-2" (by decide) (by decide)⟩

/-! ### Claim C9: insert-then-delete round trip -/

/-- C9 counterexample: when the fetched collection already contains an
element with the inserted name, deleting by that name removes the
pre-existing element as well — the round trip returns the empty
collection, which is not set-equal to the original singleton. -/
theorem insertThenDeleteRoundTripFails :
    shellDeleteMerge
        (shellCreateMerge
          [⟨"id-1", "disk", "1m", "1m", ⟨"", [], false, false, false⟩, false, "", "x"⟩]
          ⟨"prod", "disk", "", "y", "", "1m", "1m", false⟩ "id-2") "disk" = [] ∧
    ([⟨"id-1", "disk", "1m", "1m", ⟨"", [], false, false, false⟩, false, "", "x"⟩] :
      List ShellHealthcheck) ≠ [] := by decide

/-- C9 (amended): provided no element of the fetched collection already
carries the new element's name, inserting the element and then deleting by
that name returns exactly the original collection (in particular a
collection equal to it as a set). -/
theorem insertThenDeleteRoundTrip :
    ∀ (checks : List ShellHealthcheck) (d : ShellHealthcheckData) (newID : String),
      (∀ c ∈ checks, c.name ≠ d.name) →
      shellDeleteMerge (shellCreateMerge checks d newID) d.name = checks := by
  intro checks d newID h
  unfold shellDeleteMerge shellCreateMerge
  rw [List.filter_append]
  have h1 : checks.filter (fun c => c.name != d.name) = checks :=
    List.filter_eq_self.mpr (fun c hc => by
      simp only [bne_iff_ne, ne_eq]
      exact h c hc)
  have h2 : ([newShellCheck d newID].filter (fun c => c.name != d.name)) = [] := by
    simp [newShellCheck]
  rw [h1, h2, List.append_nil]

/-- C9 witness: inserting disk into a collection holding only mem and then
deleting by disk returns the original collection. -/
theorem insertThenDeleteRoundTripWitness :
    shellDeleteMerge
        (shellCreateMerge
          [⟨"id-1", "mem", "1m", "1m", ⟨"", [], false, false, false⟩, false, "", "x"⟩]
          ⟨"prod", "disk", "", "y", "", "1m", "1m", false⟩ "id-2") "disk" =
      [⟨"id-1", "mem", "1m", "1m", ⟨"", [], false, false, false⟩, false, "", "x"⟩] :=
  insertThenDeleteRoundTrip
    [⟨"id-1", "mem", "1m", "1m", ⟨"", [], false, false, false⟩, false, "", "x"⟩]
    ⟨"prod", "disk", "", "y", "", "1m", "1m", false⟩ "id-2" (by decide)

/-! ### Claim C10: frame property of the health-check update merge -/

/-- C10: when the update merge finds a name match at the first matching
index k, exactly the element at k is replaced; the replacement keeps that
element's server-side id and its Integrations configuration (neither comes
from the plan) while all other fields come from the plan, and every other
position of the collection is written back unchanged. -/
theorem healthcheckUpdateReplacesOnlyFirstMatch :
    (∀ (checks : List ShellHealthcheck) (stateName : String) (plan : ShellHealthcheckData)
       (k : Nat) (hk : k < checks.length),
       (checks.get ⟨k, hk⟩).name = stateName →
       (∀ j (hj : j < k), (checks.get ⟨j, Nat.lt_trans hj hk⟩).name ≠ stateName) →
       shellUpdateMerge checks stateName plan =
         (checks.set k
           { id := (checks.get ⟨k, hk⟩).id, name := plan.name, script := plan.script,
             shell := plan.shell, interval := plan.interval, timeout := plan.timeout,
             readonly := plan.readonly,
             integrations := (checks.get ⟨k, hk⟩).integrations }, true) ∧
       (∀ j, j ≠ k → (shellUpdateMerge checks stateName plan).1[j]? = checks[j]?)) ∧
    (∀ (checks : List TCPHealthcheck) (stateName : String) (plan : TCPHealthcheckData)
       (k : Nat) (hk : k < checks.length),
       (checks.get ⟨k, hk⟩).name = stateName →
       (∀ j (hj : j < k), (checks.get ⟨j, Nat.lt_trans hj hk⟩).name ≠ stateName) →
       tcpUpdateMerge checks stateName plan =
         (checks.set k
           { id := (checks.get ⟨k, hk⟩).id, name := plan.name, tcp := plan.tcp,
             interval := plan.interval, timeout := plan.timeout,
             readonly := plan.readonly,
             supportedAgentType := plan.supportedAgentTypes,
             integrations := (checks.get ⟨k, hk⟩).integrations }, true) ∧
       (∀ j, j ≠ k → (tcpUpdateMerge checks stateName plan).1[j]? = checks[j]?)) := by
  constructor
  · intro checks stateName plan k hk hname hfirst
    have heq := replaceFirst_first_match (fun c => c.name == stateName)
      (fun c => { id := c.id, name := plan.name, script := plan.script, shell := plan.shell,
                  interval := plan.interval, timeout := plan.timeout,
                  readonly := plan.readonly, integrations := c.integrations })
      checks k hk (by simpa using hname) (fun j hj => by simpa using hfirst j hj)
    have heq2 : shellUpdateMerge checks stateName plan =
        (checks.set k
          { id := (checks.get ⟨k, hk⟩).id, name := plan.name, script := plan.script,
            shell := plan.shell, interval := plan.interval, timeout := plan.timeout,
            readonly := plan.readonly,
            integrations := (checks.get ⟨k, hk⟩).integrations }, true) := heq
    refine ⟨heq2, ?_⟩
    intro j hj
    rw [heq2]
    exact List.getElem?_set_ne (fun h => hj h.symm)
  · intro checks stateName plan k hk hname hfirst
    have heq := replaceFirst_first_match (fun c => c.name == stateName)
      (fun c => { id := c.id, name := plan.name, tcp := plan.tcp,
                  interval := plan.interval, timeout := plan.timeout,
                  readonly := plan.readonly,
                  supportedAgentType := plan.supportedAgentTypes,
                  integrations := c.integrations })
      checks k hk (by simpa using hname) (fun j hj => by simpa using hfirst j hj)
    have heq2 : tcpUpdateMerge checks stateName plan =
        (checks.set k
          { id := (checks.get ⟨k, hk⟩).id, name := plan.name, tcp := plan.tcp,
            interval := plan.interval, timeout := plan.timeout,
            readonly := plan.readonly,
            supportedAgentType := plan.supportedAgentTypes,
            integrations := (checks.get ⟨k, hk⟩).integrations }, true) := heq
    refine ⟨heq2, ?_⟩
    intro j hj
    rw [heq2]
    exact List.getElem?_set_ne (fun h => hj h.symm)

/-- C10 witness: in a concrete collection with two elements named disk, the
update replaces only the first of them, keeping its id and Integrations
while ignoring the plan's stale id, and leaves the other two elements
untouched. -/
theorem healthcheckUpdateWitness :
    shellUpdateMerge
        [⟨"id-0", "mem", "1m", "1m", ⟨"", [], false, false, false⟩, false, "", "m.sh"⟩,
         ⟨"id-a", "disk", "5m", "2m", ⟨"slack", ["r1"], true, false, true⟩, true, "/bin/sh", "old.sh"⟩,
         ⟨"id-b", "disk", "1m", "1m", ⟨"", [], false, false, false⟩, false, "", "x"⟩]
        "disk"
        ⟨"prod", "disk", "stale-id", "new.sh", "/bin/bash", "2m", "3m", false⟩ =
      ([⟨"id-0", "mem", "1m", "1m", ⟨"", [], false, false, false⟩, false, "", "m.sh"⟩,
        ⟨"id-a", "disk", "2m", "3m", ⟨"slack", ["r1"], true, false, true⟩, false, "/bin/bash", "new.sh"⟩,
        ⟨"id-b", "disk", "1m", "1m", ⟨"", [], false, false, false⟩, false, "", "x"⟩], true) := by
  have h := (healthcheckUpdateReplacesOnlyFirstMatch.1
    [⟨"id-0", "mem", "1m", "1m", ⟨"", [], false, false, false⟩, false, "", "m.sh"⟩,
     ⟨"id-a", "disk", "5m", "2m", ⟨"slack", ["r1"], true, false, true⟩, true, "/bin/sh", "old.sh"⟩,
     ⟨"id-b", "disk", "1m", "1m", ⟨"", [], false, false, false⟩, false, "", "x"⟩]
    "disk" ⟨"prod", "disk", "stale-id", "new.sh", "/bin/bash", "2m", "3m", false⟩
    1 (by decide) (by decide)
    (fun j hj => by
      have hj0 : j = 0 := Nat.lt_one_iff.mp hj
      subst hj0
      show ("mem" : String) ≠ "disk"
      decide)).1
  rw [h]
  decide

end Axonops
